import Mathlib

/-!
Verification development for the Caltora BizBot call-handling service.

The repository consists of two Flask servers sharing one design:
`src/app.py` (the current snapshot: tenant users, call sessions with a
step counter, message-capture and AI modes) and `src/app_backup.py`
(an earlier snapshot: an intent-classified dialog state machine with a
`messages` lead table).  This file gives a shallow embedding of the
call-handling core of both snapshots and proves properties of it.

Modelling conventions:
* SQLite tables become Lean lists of structures, keyed by their
  primary key (`call_sid`); `SELECT ... LIMIT 1` becomes a first-match
  lookup, `UPDATE/DELETE WHERE call_sid=?` update/remove the matching
  row.
* JSON text stored in the database is represented by its parse result
  (`JsonText.valid v` for text `json.loads` accepts, carrying the
  parsed value, `JsonText.invalid raw` for text on which it raises).
  `json.dumps` of a value produces valid text for that value.
* Timestamps (`ts_utc`, `created_at`, ...) carry no behaviour and are
  omitted from the records.
* TwiML responses are modelled as the ordered list of `say`, `gather`
  and `hangup` verbs the handler emits.
* Paths on which the Python code would raise an uncaught exception
  (indexing a JSON value that is valid but not an object — a state the
  application itself never writes) are modelled by the handler
  returning `none`.
* The OpenAI client call in `ai_reply` is external I/O; its outcome is
  passed in as a `ResponderOutcome` oracle (client unavailable, request
  raised, or request returned output text).
-/

namespace Caltora

/-- JSON values, as produced by `json.loads`.  Numbers are modelled as
integers; the application only ever stores strings and booleans. -/
inductive JsonVal where
  | null
  | bool (b : Bool)
  | num (n : Int)
  | str (s : String)
  | arr (xs : List JsonVal)
  | obj (m : List (String × JsonVal))

/-- A JSON source string, represented by its parse result: `valid v` is
text that `json.loads` parses to `v`, `invalid raw` is text (including
the empty string) on which `json.loads` raises. -/
inductive JsonText where
  | valid (v : JsonVal)
  | invalid (raw : String)

/-- `json.loads`, on the `JsonText` representation. -/
def loads : JsonText → Option JsonVal
  | JsonText.valid v => some v
  | JsonText.invalid _ => none

/-- `json.dumps`: serialising a value yields text that parses back to it. -/
def dumps (v : JsonVal) : JsonText := JsonText.valid v

/-- `safe_json` from `src/app.py`: parse the string, returning `default`
when the string is empty or parsing raises. -/
def safe_json (s : JsonText) (default : JsonVal) : JsonVal :=
  match loads s with
  | some v => v
  | none => default

/-- Python truthiness of a JSON value (`if value:`). -/
def truthy : JsonVal → Bool
  | JsonVal.null => false
  | JsonVal.bool b => b
  | JsonVal.num n => n != 0
  | JsonVal.str s => s ≠ ""
  | JsonVal.arr xs => !xs.isEmpty
  | JsonVal.obj m => !m.isEmpty

/-- Python `dict` lookup on an insertion-ordered association list
(application dicts have unique keys, so first match is the binding). -/
def dictGet : List (String × JsonVal) → String → Option JsonVal
  | [], _ => none
  | p :: rest, k => if p.1 = k then some p.2 else dictGet rest k

/-- Python `d[k] = v`: overwrite the binding in place, or append it. -/
def dictSet : List (String × JsonVal) → String → JsonVal → List (String × JsonVal)
  | [], k, v => [(k, v)]
  | p :: rest, k, v => if p.1 = k then (p.1, v) :: rest else p :: dictSet rest k v

/-- Python `d.update(patch)`: apply each binding of the patch in order. -/
def dictUpdate : List (String × JsonVal) → List (String × JsonVal) → List (String × JsonVal)
  | m, [] => m
  | m, kv :: rest => dictUpdate (dictSet m kv.1 kv.2) rest

/-- View a JSON value as a dict; `none` when it is not an object
(the Python code would raise on indexing it). -/
def asObj : JsonVal → Option (List (String × JsonVal))
  | JsonVal.obj m => some m
  | _ => none

/-- Whitespace characters stripped by Python `str.strip()` (the
application only ever meets ASCII whitespace). -/
def isSpaceChar (c : Char) : Bool :=
  c == ' ' || c == '\t' || c == '\n' || c == '\r'

/-- Drop leading whitespace from a character list. -/
def dropLeadingSpaces : List Char → List Char
  | [] => []
  | c :: rest => if isSpaceChar c then dropLeadingSpaces rest else c :: rest

/-- Python `str.strip()`: remove leading and trailing whitespace. -/
def pyStrip (s : String) : String :=
  String.mk ((dropLeadingSpaces (dropLeadingSpaces s.toList).reverse).reverse)

/-- Python `str.lower()` (ASCII; every string the application compares
after lowering is ASCII). -/
def pyLower (s : String) : String :=
  String.mk (s.toList.map Char.toLower)

/-- Python `s.replace(" ", "")` (and SQL `REPLACE(x, ' ', '')`):
remove every space. -/
def removeSpaces (s : String) : String :=
  String.mk (s.toList.filter (fun c => !(c == ' ')))

/-- Character-list prefix test (used for substring search). -/
def isPrefOf : List Char → List Char → Bool
  | [], _ => true
  | _ :: _, [] => false
  | a :: as, b :: bs => a == b && isPrefOf as bs

/-- Character-list infix test. -/
def infixOf (k : List Char) : List Char → Bool
  | [] => isPrefOf k []
  | b :: ts => isPrefOf k (b :: ts) || infixOf k ts

/-- Python `k in t` on strings: substring containment. -/
def strContains (t k : String) : Bool := infixOf k.toList t.toList

/-- Python `any(k in t for k in ks)`. -/
def containsAny (t : String) (ks : List String) : Bool :=
  ks.any (fun k => strContains t k)

/-- One TwiML verb of a voice response: speak a line, gather speech
(speaking the given prompts inside the gather), or hang up. -/
inductive TwiMLItem where
  | say (text : String)
  | gather (prompts : List String)
  | hangup

/-- A TwiML voice response: the ordered verbs the handler emitted. -/
abbrev TwiML := List TwiMLItem

end Caltora

namespace Caltora.Backup

/-! Embedding of the call-handling core of `src/app_backup.py`. -/

/-- One row of the `call_state` table (per-call state machine storage).
`intent` is a nullable TEXT column. -/
structure CallState where
  call_sid : String
  intent : Option String
  stage : String
  data_json : JsonText

/-- One row of the `call_logs` table (timestamp omitted). -/
structure CallLogRow where
  call_sid : String
  from_number : String
  to_number : String
  intent : Option String
  stage : String
  transcript : String
  bot_reply : String

/-- One row of the `messages` table (captured message / lead). -/
structure MessageRow where
  call_sid : String
  from_number : String
  name : String
  phone : String
  message : String
  intent : String

/-- The database state of the backup snapshot. -/
structure BState where
  call_state : List CallState
  call_logs : List CallLogRow
  messages : List MessageRow

/-- `SELECT * FROM call_state WHERE call_sid = ?` (first match). -/
def lookup_state : List CallState → String → Option CallState
  | [], _ => none
  | r :: rest, sid => if r.call_sid = sid then some r else lookup_state rest sid

/-- `get_state`: absent rows yield intent `None`, stage `"root"` and
empty data; a present row's `data_json` is parsed, falling back to the
empty dict when parsing raises, and an empty stage reads as `"root"`. -/
def get_state (rows : List CallState) (call_sid : String) :
    Option String × String × JsonVal :=
  match lookup_state rows call_sid with
  | none => (none, "root", JsonVal.obj [])
  | some r =>
      (r.intent,
       (if r.stage = "" then "root" else r.stage),
       (match loads r.data_json with
        | some v => v
        | none => JsonVal.obj []))

/-- `set_state`: upsert of the full row (the `call_sid` PRIMARY KEY
guarantees at most one row per call, so updating the first match is the
SQL `ON CONFLICT DO UPDATE`). -/
def set_state : List CallState → String → Option String → String →
    List (String × JsonVal) → List CallState
  | [], sid, i, stg, d => [⟨sid, i, stg, dumps (JsonVal.obj d)⟩]
  | r :: rest, sid, i, stg, d =>
      if r.call_sid = sid then ⟨sid, i, stg, dumps (JsonVal.obj d)⟩ :: rest
      else r :: set_state rest sid i stg d

/-- `clear_state`: `DELETE FROM call_state WHERE call_sid = ?`. -/
def clear_state : List CallState → String → List CallState
  | [], _ => []
  | r :: rest, sid =>
      if r.call_sid = sid then clear_state rest sid
      else r :: clear_state rest sid

/-- `detect_intent` from `src/app_backup.py`: rule-based keyword
classification of the lower-cased, stripped utterance. -/
def detect_intent (text : String) : String :=
  let t := pyLower (pyStrip text)
  if containsAny t ["appointment", "book", "booking", "schedule", "reserve"] then
    "appointment"
  else if containsAny t ["hours", "open", "opening", "closing", "close",
      "when are you open", "what time"] then
    "hours"
  else if containsAny t ["price", "pricing", "cost", "how much", "rate", "fees"] then
    "pricing"
  else if containsAny t ["human", "agent", "representative", "operator",
      "call me back", "callback", "speak to"] then
    "message"
  else if containsAny t ["leave a message", "message", "voicemail"] then
    "message"
  else
    "general"

/-- `make_gather`: a gather speaking the prompt, then the no-input
goodbye line. -/
def make_gather (prompt : String) : TwiML :=
  [TwiMLItem.gather [prompt], TwiMLItem.say "I did not catch that. Goodbye."]

/-- Python `data.get(k, "")` where the result is used as a string.
Values other than strings never occur in application-written data and
are outside the model (`none`). -/
def getStr (m : List (String × JsonVal)) (k : String) : Option String :=
  match dictGet m k with
  | none => some ""
  | some (JsonVal.str s) => some s
  | some _ => none

/-- `handle_input` from `src/app_backup.py`: one turn of the
intent-classified dialog state machine.  `speech` is the raw
`SpeechResult` field.  Returns the TwiML response and the new database
state, or `none` on the (application-unreachable) paths where the
Python code would raise on non-object session data. -/
def handle_input (st : BState) (call_sid from_number to_number speech : String) :
    Option (TwiML × BState) :=
  let s0 := get_state st.call_state call_sid
  let intent := s0.1
  let stage := s0.2.1
  let dataVal := s0.2.2
  if pyStrip speech = "" then
    if stage = "root" then
      let reply := "I did not catch that. Please repeat what you need."
      some ([TwiMLItem.gather [reply], TwiMLItem.say "Goodbye."],
            { st with call_logs := st.call_logs ++
                [⟨call_sid, from_number, to_number, intent, stage, speech, reply⟩] })
    else
      let reply := "I still did not catch that. Goodbye."
      some ([TwiMLItem.say reply],
            { call_state := clear_state st.call_state call_sid,
              call_logs := st.call_logs ++
                [⟨call_sid, from_number, to_number, intent, stage, speech, reply⟩],
              messages := st.messages })
  else if stage = "root" then
    let intent2 := detect_intent speech
    let data : List (String × JsonVal) := [("first_utterance", JsonVal.str speech)]
    if intent2 = "hours" then
      let reply := "What city or location are you asking about?"
      some (make_gather reply,
            { call_state := set_state st.call_state call_sid (some intent2) "hours_location" data,
              call_logs := st.call_logs ++
                [⟨call_sid, from_number, to_number, some intent2, "root", speech, reply⟩],
              messages := st.messages })
    else if intent2 = "pricing" then
      let reply := "Which service are you asking about, and what is the size of your request?"
      some (make_gather reply,
            { call_state := set_state st.call_state call_sid (some intent2) "pricing_details" data,
              call_logs := st.call_logs ++
                [⟨call_sid, from_number, to_number, some intent2, "root", speech, reply⟩],
              messages := st.messages })
    else if intent2 = "appointment" then
      let reply := "Sure. What day and time would you like the appointment?"
      some (make_gather reply,
            { call_state := set_state st.call_state call_sid (some intent2) "appt_datetime" data,
              call_logs := st.call_logs ++
                [⟨call_sid, from_number, to_number, some intent2, "root", speech, reply⟩],
              messages := st.messages })
    else if intent2 = "message" then
      let reply := "Of course. Please tell me your name."
      some (make_gather reply,
            { call_state := set_state st.call_state call_sid (some intent2) "msg_name" data,
              call_logs := st.call_logs ++
                [⟨call_sid, from_number, to_number, some intent2, "root", speech, reply⟩],
              messages := st.messages })
    else
      let reply := "Thanks. I can help best by taking a message. Please tell me your name."
      some (make_gather reply,
            { call_state := set_state st.call_state call_sid (some "message") "msg_name" data,
              call_logs := st.call_logs ++
                [⟨call_sid, from_number, to_number, some "general", "root", speech, reply⟩],
              messages := st.messages })
  else if stage = "hours_location" then
    match asObj dataVal with
    | none => none
    | some data =>
      let data1 := dictSet data "location" (JsonVal.str (pyStrip speech))
      let reply := "Thanks. I noted " ++ pyStrip speech ++
        ". Our hours vary by location. I will have the team confirm and follow up. Please tell me your name."
      some (make_gather reply,
            { call_state := set_state st.call_state call_sid intent "msg_name" data1,
              call_logs := st.call_logs ++
                [⟨call_sid, from_number, to_number, intent, stage, speech, reply⟩],
              messages := st.messages })
  else if stage = "pricing_details" then
    match asObj dataVal with
    | none => none
    | some data =>
      let data1 := dictSet data "pricing_details" (JsonVal.str (pyStrip speech))
      let reply := "Thanks. I noted that. Please tell me your name so the team can respond with accurate pricing."
      some (make_gather reply,
            { call_state := set_state st.call_state call_sid intent "msg_name" data1,
              call_logs := st.call_logs ++
                [⟨call_sid, from_number, to_number, intent, stage, speech, reply⟩],
              messages := st.messages })
  else if stage = "appt_datetime" then
    match asObj dataVal with
    | none => none
    | some data =>
      let data1 := dictSet data "appt_datetime" (JsonVal.str (pyStrip speech))
      let reply := "Got it. Please tell me your name."
      some (make_gather reply,
            { call_state := set_state st.call_state call_sid intent "appt_name" data1,
              call_logs := st.call_logs ++
                [⟨call_sid, from_number, to_number, intent, stage, speech, reply⟩],
              messages := st.messages })
  else if stage = "appt_name" then
    match asObj dataVal with
    | none => none
    | some data =>
      let data1 := dictSet data "name" (JsonVal.str (pyStrip speech))
      let reply := "Thanks. Finally, please confirm the best phone number for a callback."
      some (make_gather reply,
            { call_state := set_state st.call_state call_sid intent "appt_phone" data1,
              call_logs := st.call_logs ++
                [⟨call_sid, from_number, to_number, intent, stage, speech, reply⟩],
              messages := st.messages })
  else if stage = "appt_phone" then
    match asObj dataVal with
    | none => none
    | some data =>
      let data1 := dictSet data "phone" (JsonVal.str (pyStrip speech))
      match getStr data1 "name", getStr data1 "phone",
            getStr data1 "appt_datetime", getStr data1 "first_utterance" with
      | some nm, some ph, some dt, some fu =>
        let reply := "Perfect. I have your appointment request and contact details. The team will confirm shortly. Goodbye."
        some ([TwiMLItem.say reply],
              { call_state := clear_state st.call_state call_sid,
                call_logs := st.call_logs ++
                  [⟨call_sid, from_number, to_number, intent, stage, speech, reply⟩],
                messages := st.messages ++
                  [⟨call_sid, from_number, nm, ph,
                    "Appointment request: " ++ dt ++ " | First: " ++ fu,
                    "appointment"⟩] })
      | _, _, _, _ => none
  else if stage = "msg_name" then
    match asObj dataVal with
    | none => none
    | some data =>
      let data1 := dictSet data "name" (JsonVal.str (pyStrip speech))
      let reply := "Thanks. Please confirm the best phone number for a callback."
      some (make_gather reply,
            { call_state := set_state st.call_state call_sid (some "message") "msg_phone" data1,
              call_logs := st.call_logs ++
                [⟨call_sid, from_number, to_number, some "message", stage, speech, reply⟩],
              messages := st.messages })
  else if stage = "msg_phone" then
    match asObj dataVal with
    | none => none
    | some data =>
      let data1 := dictSet data "phone" (JsonVal.str (pyStrip speech))
      let reply := "Great. Now, please say your message."
      some (make_gather reply,
            { call_state := set_state st.call_state call_sid (some "message") "msg_body" data1,
              call_logs := st.call_logs ++
                [⟨call_sid, from_number, to_number, some "message", stage, speech, reply⟩],
              messages := st.messages })
  else if stage = "msg_body" then
    match asObj dataVal with
    | none => none
    | some data =>
      let data1 := dictSet data "message" (JsonVal.str (pyStrip speech))
      let msgIntent :=
        match dictGet data1 "intent" with
        | none => some "message"
        | some v =>
            if truthy v then
              match v with
              | JsonVal.str s => some s
              | _ => none
            else some "message"
      match getStr data1 "name", getStr data1 "phone", getStr data1 "message", msgIntent with
      | some nm, some ph, some msg, some itag =>
        let reply := "Thank you. Your message has been recorded and someone will follow up shortly. Goodbye."
        some ([TwiMLItem.say reply],
              { call_state := clear_state st.call_state call_sid,
                call_logs := st.call_logs ++
                  [⟨call_sid, from_number, to_number, some "message", stage, speech, reply⟩],
                messages := st.messages ++ [⟨call_sid, from_number, nm, ph, msg, itag⟩] })
      | _, _, _, _ => none
  else
    let reply := "Thanks. Let me restart. Please tell me how I can help."
    some (make_gather reply,
          { call_state := clear_state st.call_state call_sid,
            call_logs := st.call_logs ++
              [⟨call_sid, from_number, to_number, intent, stage, speech, reply⟩],
            messages := st.messages })

end Caltora.Backup

namespace Caltora.App

/-! Embedding of the call-handling core of `src/app.py`. -/

/-- `MAX_CALL_STEPS` (env default `"8"`). -/
def MAX_CALL_STEPS : Nat := 8

/-- `APP_NAME` (env default). -/
def APP_NAME : String := "Optenor BizBot"

/-- The columns of a `users` row consumed by the voice webhooks
(nullable TEXT columns are modelled with `""` for NULL). -/
structure UserRow where
  id : Nat
  business_name : String
  business_type : String
  greeting : String
  faqs : String
  mode : String
  capture_json : JsonText
  bizbot_number : String

/-- One row of the `call_sessions` table (timestamps omitted). -/
structure Session where
  call_sid : String
  user_id : Nat
  stage : String
  step_count : Nat
  data_json : JsonText

/-- One row of the `call_logs` table (timestamp omitted). -/
structure CallLogRow where
  user_id : Nat
  call_sid : String
  to_number : String
  from_number : String
  stage : String
  transcript : String
  bot_reply : String

/-- The `call_sessions` table, keyed by the `call_sid` PRIMARY KEY. -/
abbrev SessionStore := List Session

/-- The database state of the current snapshot. -/
structure AppState where
  users : List UserRow
  sessions : SessionStore
  call_logs : List CallLogRow

/-- `SELECT * FROM call_sessions WHERE call_sid = ?` (first match). -/
def lookupSession : SessionStore → String → Option Session
  | [], _ => none
  | s :: rest, sid => if s.call_sid = sid then some s else lookupSession rest sid

/-- `norm_phone`: remove spaces, strip surrounding whitespace. -/
def norm_phone (s : String) : String := pyStrip (removeSpaces s)

/-- `find_user_by_to_number`: first user whose space-stripped
`bizbot_number` equals the space-stripped normalised dialed number. -/
def find_user_by_to_number (users : List UserRow) (to_number : String) :
    Option UserRow :=
  let t := norm_phone to_number
  users.find? (fun u => removeSpaces u.bizbot_number == removeSpaces t)

/-- `template_greeting`. -/
def template_greeting (business_name business_type : String) : String :=
  let bn := if business_name = "" then "our business" else business_name
  let bt := pyLower business_type
  if strContains bt "clinic" || strContains bt "medical" then
    "Thanks for calling " ++ bn ++ ". How can I help?"
  else if strContains bt "salon" || strContains bt "barber" then
    "Thanks for calling " ++ bn ++ ". How can I help you today?"
  else if strContains bt "repair" then
    "Thanks for calling " ++ bn ++ ". What can I help you with?"
  else
    "Thanks for calling " ++ bn ++ ". How can I help?"

/-- `get_or_create_session`: return the existing row, or insert a fresh
one at stage `"root"` with step count `0` and empty data and return it. -/
def get_or_create_session (st : SessionStore) (call_sid : String) (user_id : Nat) :
    Session × SessionStore :=
  match lookupSession st call_sid with
  | some row => (row, st)
  | none =>
      let row : Session :=
        { call_sid := call_sid, user_id := user_id, stage := "root",
          step_count := 0, data_json := dumps (JsonVal.obj []) }
      (row, st ++ [row])

/-- `UPDATE call_sessions SET ... WHERE call_sid = ?` on the first
matching row (`call_sid` is the PRIMARY KEY, so there is at most one). -/
def update_rows : SessionStore → String → String → Nat → JsonText → SessionStore
  | [], _, _, _, _ => []
  | s :: rest, sid, stg, stp, dj =>
      if s.call_sid = sid then
        { s with stage := stg, step_count := stp, data_json := dj } :: rest
      else s :: update_rows rest sid stg stp dj

/-- `update_session`: silently return when the row is absent; otherwise
parse the stored data (empty dict on parse failure), merge the patch
into it when a patch is given, keep the stage unless overridden, and
bump the step counter when `bump_step`.  `none` models the Python
`AttributeError` raised when a patch is given but the stored data is
valid JSON that is not an object (never written by the application). -/
def update_session (st : SessionStore) (call_sid : String) (stage : Option String)
    (data : Option (List (String × JsonVal))) (bump_step : Bool) :
    Option SessionStore :=
  match lookupSession st call_sid with
  | none => some st
  | some row =>
      let existing := safe_json row.data_json (JsonVal.obj [])
      let new_stage := stage.getD row.stage
      let step_count := row.step_count + (if bump_step then 1 else 0)
      match data with
      | none => some (update_rows st call_sid new_stage step_count (dumps existing))
      | some patch =>
          match existing with
          | JsonVal.obj m =>
              some (update_rows st call_sid new_stage step_count
                (dumps (JsonVal.obj (dictUpdate m patch))))
          | _ => none

/-- `delete_session`: `DELETE FROM call_sessions WHERE call_sid = ?`. -/
def delete_session : SessionStore → String → SessionStore
  | [], _ => []
  | s :: rest, sid =>
      if s.call_sid = sid then delete_session rest sid
      else s :: delete_session rest sid

/-- Outcome of the OpenAI request made by `ai_reply`: the client was
never constructed, the request raised (error or timeout), or the
request returned output text. -/
inductive ResponderOutcome where
  | unavailable
  | failure
  | output (s : String)

/-- `ai_reply`: the deterministic skeleton of the generative fallback.
Each failure mode yields its fixed fallback line; successful non-blank
output is returned stripped. -/
def ai_reply (business_name faqs caller_text : String)
    (outcome : ResponderOutcome) : String :=
  match outcome with
  | ResponderOutcome.unavailable =>
      "Thanks. I can take a message—what’s your name and callback number?"
  | ResponderOutcome.failure =>
      "Sorry—there was a problem. Please leave your name and callback number."
  | ResponderOutcome.output s =>
      if pyStrip s = "" then
        "Sorry—I didn’t catch that. What’s your name and callback number?"
      else pyStrip s

/-- The stage of a session as read by `handle_input`:
`(sess["stage"] or "root").strip()`. -/
def stage_of (sess : Session) : String :=
  pyStrip (if sess.stage = "" then "root" else sess.stage)

/-- The tenant mode as read by `handle_input`:
`(user["mode"] or "message").strip().lower()`. -/
def mode_of (user : UserRow) : String :=
  pyLower (pyStrip (if user.mode = "" then "message" else user.mode))

/-- The default capture dict used when `capture_json` fails to parse. -/
def defaultCapture : JsonVal :=
  JsonVal.obj [("collect_reason", JsonVal.bool true),
               ("collect_name", JsonVal.bool true),
               ("collect_callback", JsonVal.bool true),
               ("collect_preferred_time", JsonVal.bool true)]

/-- The `/voice` webhook: tenant lookup, get-or-create session, runaway
cap check (note: no session deletion on this path), then greeting and
gather.  The `last_voice_utc` touch carries no modelled behaviour. -/
def voice (st : AppState) (call_sid from_number to_number : String) :
    TwiML × AppState :=
  match find_user_by_to_number st.users to_number with
  | none =>
      ([TwiMLItem.say "This number is not linked to a business yet. Please call back later.",
        TwiMLItem.hangup], st)
  | some user =>
      let pr := get_or_create_session st.sessions call_sid user.id
      if pr.1.step_count > MAX_CALL_STEPS then
        ([TwiMLItem.say "Sorry, something went wrong. Please call back later.",
          TwiMLItem.hangup], { st with sessions := pr.2 })
      else
        let greeting :=
          if user.greeting = "" then
            template_greeting user.business_name user.business_type
          else user.greeting
        ([TwiMLItem.gather [greeting, "Please tell me what you need."],
          TwiMLItem.say "Sorry, I didn’t catch that. Goodbye.",
          TwiMLItem.hangup], { st with sessions := pr.2 })

/-- The `/handle-input` webhook of `src/app.py`: one turn.  `speechRaw`
is the raw `SpeechResult` field (the handler strips it).  Returns the
TwiML response and new database state; `none` models the
(application-unreachable) paths where the Python code would raise on
valid-but-non-object JSON. -/
def handle_input (st : AppState) (call_sid from_number to_number speechRaw : String)
    (oracle : ResponderOutcome) : Option (TwiML × AppState) :=
  let speech := pyStrip speechRaw
  match find_user_by_to_number st.users to_number with
  | none =>
      some ([TwiMLItem.say "This number is not linked to a business yet.",
             TwiMLItem.hangup], st)
  | some user =>
      let pr := get_or_create_session st.sessions call_sid user.id
      let sess := pr.1
      let sessions1 := pr.2
      let stage := stage_of sess
      if sess.step_count > MAX_CALL_STEPS then
        some ([TwiMLItem.say "Sorry, something went wrong. Please call back later.",
               TwiMLItem.hangup],
              { st with sessions := delete_session sessions1 call_sid })
      else
        let dataVal := safe_json sess.data_json (JsonVal.obj [])
        let captureVal := safe_json user.capture_json defaultCapture
        let mode := mode_of user
        if speech = "" then
          let bot := "Sorry, I didn’t catch that. Please repeat."
          some ([TwiMLItem.gather [bot], TwiMLItem.say "Goodbye."],
                { st with sessions := sessions1,
                          call_logs := st.call_logs ++
                            [⟨user.id, call_sid, to_number, from_number, stage, "", bot⟩] })
        else if mode = "message" then
          if stage = "root" then
            match asObj dataVal with
            | none => none
            | some data =>
              let data1 := dictSet data "reason" (JsonVal.str speech)
              match update_session sessions1 call_sid (some "ask_name") (some data1) true with
              | none => none
              | some sessions2 =>
                let bot := "Thanks. What’s your name?"
                some ([TwiMLItem.gather [bot], TwiMLItem.say "Goodbye."],
                      { st with sessions := sessions2,
                                call_logs := st.call_logs ++
                                  [⟨user.id, call_sid, to_number, from_number, stage, speech, bot⟩] })
          else if stage = "ask_name" then
            match asObj dataVal with
            | none => none
            | some data =>
              let data1 := dictSet data "name" (JsonVal.str speech)
              match update_session sessions1 call_sid (some "ask_callback") (some data1) true with
              | none => none
              | some sessions2 =>
                let bot := "Thanks. What’s the best callback number?"
                some ([TwiMLItem.gather [bot], TwiMLItem.say "Goodbye."],
                      { st with sessions := sessions2,
                                call_logs := st.call_logs ++
                                  [⟨user.id, call_sid, to_number, from_number, stage, speech, bot⟩] })
          else if stage = "ask_callback" then
            match asObj dataVal, asObj captureVal with
            | some data, some cap =>
              let data1 := dictSet data "callback" (JsonVal.str speech)
              if truthy ((dictGet cap "collect_preferred_time").getD (JsonVal.bool true)) then
                match update_session sessions1 call_sid (some "ask_time") (some data1) true with
                | none => none
                | some sessions2 =>
                  let bot := "Got it. What’s a good time to call you back?"
                  some ([TwiMLItem.gather [bot], TwiMLItem.say "Goodbye."],
                        { st with sessions := sessions2,
                                  call_logs := st.call_logs ++
                                    [⟨user.id, call_sid, to_number, from_number, stage, speech, bot⟩] })
              else
                match update_session sessions1 call_sid (some "done") (some data1) true with
                | none => none
                | some sessions2 =>
                  let bot := "Perfect. We’ll get back to you soon. Goodbye."
                  some ([TwiMLItem.say bot, TwiMLItem.hangup],
                        { st with sessions := delete_session sessions2 call_sid,
                                  call_logs := st.call_logs ++
                                    [⟨user.id, call_sid, to_number, from_number, stage, speech, bot⟩] })
            | _, _ => none
          else if stage = "ask_time" then
            match asObj dataVal with
            | none => none
            | some data =>
              let data1 := dictSet data "preferred_time" (JsonVal.str speech)
              match update_session sessions1 call_sid (some "done") (some data1) true with
              | none => none
              | some sessions2 =>
                let bot := "Perfect. We’ll get back to you soon. Goodbye."
                some ([TwiMLItem.say bot, TwiMLItem.hangup],
                      { st with sessions := delete_session sessions2 call_sid,
                                call_logs := st.call_logs ++
                                  [⟨user.id, call_sid, to_number, from_number, stage, speech, bot⟩] })
          else
            let bot := "Thanks for calling. Goodbye."
            some ([TwiMLItem.say bot, TwiMLItem.hangup],
                  { st with sessions := delete_session sessions1 call_sid,
                            call_logs := st.call_logs ++
                              [⟨user.id, call_sid, to_number, from_number, stage, speech, bot⟩] })
        else
          let bot := ai_reply
            (if user.business_name = "" then APP_NAME else user.business_name)
            user.faqs speech oracle
          match update_session sessions1 call_sid (some "ai")
              (some [("last_user", JsonVal.str speech)]) true with
          | none => none
          | some sessions2 =>
            some ([TwiMLItem.gather [bot, "Anything else?"],
                   TwiMLItem.say "Goodbye.", TwiMLItem.hangup],
                  { st with sessions := sessions2,
                            call_logs := st.call_logs ++
                              [⟨user.id, call_sid, to_number, from_number, stage, speech, bot⟩] })

/-- The session data mapping of a row, as `handle_input` reads it. -/
def sessionData (r : Session) : List (String × JsonVal) :=
  match safe_json r.data_json (JsonVal.obj []) with
  | JsonVal.obj m => m
  | _ => []

/-- A TwiML response that speaks to the caller: it contains a `say` or
a `gather` verb. -/
def speaks (tw : TwiML) : Bool :=
  tw.any (fun i =>
    match i with
    | TwiMLItem.say _ => true
    | TwiMLItem.gather _ => true
    | TwiMLItem.hangup => false)

end Caltora.App

namespace Caltora

/-! Lemmas about the dict operations. -/

theorem dictGet_dictSet_self (m : List (String × JsonVal)) (k : String) (v : JsonVal) :
    dictGet (dictSet m k v) k = some v := by
  induction m with
  | nil => simp [dictSet, dictGet]
  | cons p rest ih =>
      by_cases h : p.1 = k
      · simp [dictSet, dictGet, h]
      · simp [dictSet, dictGet, h, ih]

theorem dictGet_dictSet_other (m : List (String × JsonVal)) (k k' : String) (v : JsonVal)
    (h : k' ≠ k) : dictGet (dictSet m k v) k' = dictGet m k' := by
  have hk : ¬ (k = k') := fun hh => h hh.symm
  induction m with
  | nil => simp [dictSet, dictGet, hk]
  | cons p rest ih =>
      by_cases hp : p.1 = k
      · have hp' : ¬ (p.1 = k') := by
          rw [hp]; exact hk
        rw [dictSet, if_pos hp, dictGet, dictGet, if_neg hp', if_neg hp']
      · rw [dictSet, if_neg hp, dictGet, dictGet]
        by_cases hp' : p.1 = k'
        · rw [if_pos hp', if_pos hp']
        · rw [if_neg hp', if_neg hp']
          exact ih

theorem dictGet_dictSet_pres (m : List (String × JsonVal)) (k k' : String)
    (v v' : JsonVal) (h : dictGet m k' = some v') :
    ∃ w, dictGet (dictSet m k v) k' = some w := by
  by_cases hk : k' = k
  · subst hk
    exact ⟨v, dictGet_dictSet_self m k' v⟩
  · exact ⟨v', by rw [dictGet_dictSet_other m k k' v hk, h]⟩

theorem dictGet_dictUpdate_pres (p m : List (String × JsonVal)) (k : String)
    (v : JsonVal) (h : dictGet m k = some v) :
    ∃ w, dictGet (dictUpdate m p) k = some w := by
  induction p generalizing m v with
  | nil => exact ⟨v, h⟩
  | cons kv rest ih =>
      obtain ⟨w, hw⟩ := dictGet_dictSet_pres m kv.1 k kv.2 v h
      simpa [dictUpdate] using ih (dictSet m kv.1 kv.2) w hw

theorem dictGet_dictUpdate_none (p m : List (String × JsonVal)) (k : String)
    (h : dictGet p k = none) : dictGet (dictUpdate m p) k = dictGet m k := by
  induction p generalizing m with
  | nil => simp [dictUpdate]
  | cons kv rest ih =>
      have hk : ¬ (kv.1 = k) := by
        intro hh
        simp [dictGet, hh] at h
      have hr : dictGet rest k = none := by
        simpa [dictGet, hk] using h
      rw [dictUpdate, ih (dictSet m kv.1 kv.2) hr,
        dictGet_dictSet_other m kv.1 k kv.2 (fun hh => hk hh.symm)]

theorem dictGet_dictUpdate_patch (p m : List (String × JsonVal)) (k : String)
    (v : JsonVal) (h : dictGet p k = some v) :
    ∃ w, dictGet (dictUpdate m p) k = some w := by
  induction p generalizing m v with
  | nil => simp [dictGet] at h
  | cons kv rest ih =>
      by_cases hr : ∃ u, dictGet rest k = some u
      · obtain ⟨u, hu⟩ := hr
        simpa [dictUpdate] using ih (dictSet m kv.1 kv.2) u hu
      · have hrn : dictGet rest k = none := by
          cases hh : dictGet rest k with
          | none => rfl
          | some u => exact absurd ⟨u, hh⟩ hr
        have hk : kv.1 = k := by
          by_cases hk : kv.1 = k
          · exact hk
          · simp [dictGet, hk, hrn] at h
        refine ⟨kv.2, ?_⟩
        rw [dictUpdate, dictGet_dictUpdate_none rest (dictSet m kv.1 kv.2) k hrn, hk,
          dictGet_dictSet_self]

end Caltora

namespace Caltora.App

/-! Lemmas about the session store of `src/app.py`. -/

theorem lookupSession_append_none (st : SessionStore) (sid : String) (row : Session)
    (h : lookupSession st sid = none) :
    lookupSession (st ++ [row]) sid =
      (if row.call_sid = sid then some row else none) := by
  induction st with
  | nil => simp [lookupSession]
  | cons s rest ih =>
      by_cases hs : s.call_sid = sid
      · simp [lookupSession, hs] at h
      · rw [lookupSession] at h
        rw [List.cons_append, lookupSession]
        simp only [hs, if_false] at h ⊢
        exact ih h

theorem lookupSession_update_rows_self (st : SessionStore) (sid : String)
    (stg : String) (stp : Nat) (dj : JsonText) (row : Session)
    (h : lookupSession st sid = some row) :
    lookupSession (update_rows st sid stg stp dj) sid =
      some { row with stage := stg, step_count := stp, data_json := dj } := by
  induction st with
  | nil => simp [lookupSession] at h
  | cons s rest ih =>
      by_cases hs : s.call_sid = sid
      · rw [lookupSession, if_pos hs] at h
        cases h
        rw [update_rows, if_pos hs, lookupSession, if_pos hs]
      · rw [lookupSession, if_neg hs] at h
        rw [update_rows, if_neg hs, lookupSession, if_neg hs]
        exact ih h

theorem lookupSession_delete_self (st : SessionStore) (sid : String) :
    lookupSession (delete_session st sid) sid = none := by
  induction st with
  | nil => rfl
  | cons s rest ih =>
      by_cases hs : s.call_sid = sid
      · rw [delete_session, if_pos hs]
        exact ih
      · rw [delete_session, if_neg hs, lookupSession, if_neg hs]
        exact ih

theorem update_session_obj (st : SessionStore) (sid : String) (stg : Option String)
    (patch : List (String × JsonVal)) (b : Bool) (row : Session)
    (m : List (String × JsonVal))
    (hrow : lookupSession st sid = some row)
    (hm : safe_json row.data_json (JsonVal.obj []) = JsonVal.obj m) :
    update_session st sid stg (some patch) b =
      some (update_rows st sid (stg.getD row.stage)
        (row.step_count + (if b then 1 else 0))
        (dumps (JsonVal.obj (dictUpdate m patch)))) := by
  rw [update_session, hrow]
  simp only [hm]

end Caltora.App

namespace Caltora.Backup

/-! Lemmas about the state store of `src/app_backup.py`. -/

theorem lookup_set_state_self (rows : List CallState) (sid : String)
    (i : Option String) (stg : String) (d : List (String × JsonVal)) :
    lookup_state (set_state rows sid i stg d) sid =
      some ⟨sid, i, stg, dumps (JsonVal.obj d)⟩ := by
  induction rows with
  | nil => simp [set_state, lookup_state]
  | cons r rest ih =>
      by_cases hr : r.call_sid = sid
      · rw [set_state, if_pos hr, lookup_state]
        simp
      · rw [set_state, if_neg hr, lookup_state, if_neg hr]
        exact ih

theorem lookup_clear_state_self (rows : List CallState) (sid : String) :
    lookup_state (clear_state rows sid) sid = none := by
  induction rows with
  | nil => rfl
  | cons r rest ih =>
      by_cases hr : r.call_sid = sid
      · rw [clear_state, if_pos hr]
        exact ih
      · rw [clear_state, if_neg hr, lookup_state, if_neg hr]
        exact ih

theorem get_state_set_state (rows : List CallState) (sid : String)
    (i : Option String) (stg : String) (d : List (String × JsonVal)) :
    get_state (set_state rows sid i stg d) sid =
      (i, (if stg = "" then "root" else stg), JsonVal.obj d) := by
  rw [get_state, lookup_set_state_self]
  rfl

theorem get_state_clear_state (rows : List CallState) (sid : String) :
    get_state (clear_state rows sid) sid = (none, "root", JsonVal.obj []) := by
  rw [get_state, lookup_clear_state_self]

/-- The stage a non-root, non-empty turn of the backup snapshot leaves
the session at (`"root"` stands for a session that was deleted, since
`get_state` reads a missing row as the root stage).  This function of
the stage alone — independent of the utterance — is what the handler
realises away from the root stage. -/
def nonRootNext (stg : String) : String :=
  if stg = "hours_location" then "msg_name"
  else if stg = "pricing_details" then "msg_name"
  else if stg = "appt_datetime" then "appt_name"
  else if stg = "appt_name" then "appt_phone"
  else if stg = "msg_name" then "msg_phone"
  else if stg = "msg_phone" then "msg_body"
  else "root"

/-- Shape of a non-root, non-empty-utterance turn: the session moves to
`nonRootNext` of its stage, and its data is either the old dict with one
utterance-valued key set, or the session is deleted. -/
theorem handle_input_nonroot (b : BState) (sid f t sp : String)
    (i : Option String) (stg : String) (dv : JsonVal)
    (hx : get_state b.call_state sid = (i, stg, dv))
    (hst : ¬ stg = "root") (hsp : ¬ pyStrip sp = "")
    (tw : TwiML) (b2 : BState)
    (hrun : handle_input b sid f t sp = some (tw, b2)) :
    (get_state b2.call_state sid).2.1 = nonRootNext stg ∧
    ((∃ m key i2, asObj dv = some m ∧
        b2.call_state = set_state b.call_state sid i2 (nonRootNext stg)
          (dictSet m key (JsonVal.str (pyStrip sp)))) ∨
      b2.call_state = clear_state b.call_state sid) ∧
    (∃ tail, b2.messages = b.messages ++ tail) := by
  by_cases h1 : stg = "hours_location"
  · subst h1
    cases hdv : asObj dv with
    | none => simp [handle_input, hx, hsp, hdv] at hrun
    | some data =>
        simp [handle_input, hx, hsp, hdv] at hrun
        obtain ⟨-, hb2⟩ := hrun
        subst hb2
        exact ⟨by rw [get_state_set_state]; rfl, Or.inl ⟨data, "location", i, rfl, rfl⟩, [], by simp⟩
  · by_cases h2 : stg = "pricing_details"
    · subst h2
      cases hdv : asObj dv with
      | none => simp [handle_input, hx, hsp, hdv] at hrun
      | some data =>
          simp [handle_input, hx, hsp, hdv] at hrun
          obtain ⟨-, hb2⟩ := hrun
          subst hb2
          exact ⟨by rw [get_state_set_state]; rfl, Or.inl ⟨data, "pricing_details", i, rfl, rfl⟩, [], by simp⟩
    · by_cases h3 : stg = "appt_datetime"
      · subst h3
        cases hdv : asObj dv with
        | none => simp [handle_input, hx, hsp, hdv] at hrun
        | some data =>
            simp [handle_input, hx, hsp, hdv] at hrun
            obtain ⟨-, hb2⟩ := hrun
            subst hb2
            exact ⟨by rw [get_state_set_state]; rfl, Or.inl ⟨data, "appt_datetime", i, rfl, rfl⟩, [], by simp⟩
      · by_cases h4 : stg = "appt_name"
        · subst h4
          cases hdv : asObj dv with
          | none => simp [handle_input, hx, hsp, hdv] at hrun
          | some data =>
              simp [handle_input, hx, hsp, hdv] at hrun
              obtain ⟨-, hb2⟩ := hrun
              subst hb2
              exact ⟨by rw [get_state_set_state]; rfl, Or.inl ⟨data, "name", i, rfl, rfl⟩, [], by simp⟩
        · by_cases h5 : stg = "appt_phone"
          · subst h5
            cases hdv : asObj dv with
            | none => simp [handle_input, hx, hsp, hdv] at hrun
            | some data =>
                simp only [handle_input, hx, hsp, hdv] at hrun
                simp only [reduceIte, String.reduceEq, eq_self_iff_true, if_true,
                  if_false, ite_true, ite_false] at hrun
                split at hrun
                · simp only [Option.some.injEq, Prod.mk.injEq] at hrun
                  obtain ⟨-, hb2⟩ := hrun
                  subst hb2
                  exact ⟨by rw [get_state_clear_state]; rfl, Or.inr rfl, _, rfl⟩
                · exact absurd hrun (by simp)
          · by_cases h6 : stg = "msg_name"
            · subst h6
              cases hdv : asObj dv with
              | none => simp [handle_input, hx, hsp, hdv] at hrun
              | some data =>
                  simp [handle_input, hx, hsp, hdv] at hrun
                  obtain ⟨-, hb2⟩ := hrun
                  subst hb2
                  exact ⟨by rw [get_state_set_state]; rfl, Or.inl ⟨data, "name", some "message", rfl, rfl⟩, [], by simp⟩
            · by_cases h7 : stg = "msg_phone"
              · subst h7
                cases hdv : asObj dv with
                | none => simp [handle_input, hx, hsp, hdv] at hrun
                | some data =>
                    simp [handle_input, hx, hsp, hdv] at hrun
                    obtain ⟨-, hb2⟩ := hrun
                    subst hb2
                    exact ⟨by rw [get_state_set_state]; rfl, Or.inl ⟨data, "phone", some "message", rfl, rfl⟩, [], by simp⟩
              · by_cases h8 : stg = "msg_body"
                · subst h8
                  cases hdv : asObj dv with
                  | none => simp [handle_input, hx, hsp, hdv] at hrun
                  | some data =>
                      simp only [handle_input, hx, hsp, hdv] at hrun
                      simp only [reduceIte, String.reduceEq, eq_self_iff_true, if_true,
                        if_false, ite_true, ite_false] at hrun
                      split at hrun
                      · simp only [Option.some.injEq, Prod.mk.injEq] at hrun
                        obtain ⟨-, hb2⟩ := hrun
                        subst hb2
                        exact ⟨by rw [get_state_clear_state]; rfl, Or.inr rfl, _, rfl⟩
                      · exact absurd hrun (by simp)
                · simp [handle_input, hx, hsp, if_neg hst, if_neg h1, if_neg h2, if_neg h3,
                    if_neg h4, if_neg h5, if_neg h6, if_neg h7, if_neg h8] at hrun
                  obtain ⟨-, hb2⟩ := hrun
                  subst hb2
                  have hnn : nonRootNext stg = "root" := by
                    rw [nonRootNext, if_neg h1, if_neg h2, if_neg h3, if_neg h4, if_neg h6,
                      if_neg h7]
                  rw [hnn]
                  exact ⟨by rw [get_state_clear_state], Or.inr rfl, [], by simp⟩

/-- `detect_intent` is total over the five fixed intents. -/
theorem detect_intent_cases (s : String) :
    detect_intent s = "appointment" ∨ detect_intent s = "hours" ∨
    detect_intent s = "pricing" ∨ detect_intent s = "message" ∨
    detect_intent s = "general" := by
  rw [detect_intent]
  split
  · exact Or.inl rfl
  · split
    · exact Or.inr (Or.inl rfl)
    · split
      · exact Or.inr (Or.inr (Or.inl rfl))
      · split
        · exact Or.inr (Or.inr (Or.inr (Or.inl rfl)))
        · split
          · exact Or.inr (Or.inr (Or.inr (Or.inl rfl)))
          · exact Or.inr (Or.inr (Or.inr (Or.inr rfl)))

end Caltora.Backup

namespace Caltora

/-! ## Claim theorems -/

/-- Shared concrete tenant for counterexamples/witnesses: message mode,
linked number +15550001111. -/
def exUser : App.UserRow :=
  ⟨1, "Biz", "Salon", "Hello.", "", "message", dumps (JsonVal.obj []), "+15550001111"⟩

/-- C1 counterexample: in `src/app.py` a message-mode root turn performs
no intent classification.  The utterance "I want to book an appointment"
classifies as `appointment` under the keyword classifier, yet the turn
stores it as `reason` and moves the session to `ask_name` — not to an
appointment stage — so the claimed intent-directed routing fails on
the current snapshot's message-mode calls. -/
theorem claim_C1_counterexample :
    Backup.detect_intent "I want to book an appointment" = "appointment" ∧
    App.handle_input
        { users := [exUser],
          sessions := [⟨"CA1x", 1, "root", 0, dumps (JsonVal.obj [])⟩],
          call_logs := [] }
        "CA1x" "+15557770000" "+15550001111" "I want to book an appointment"
        App.ResponderOutcome.failure
      = some ([TwiMLItem.gather ["Thanks. What’s your name?"], TwiMLItem.say "Goodbye."],
              { users := [exUser],
                sessions := [⟨"CA1x", 1, "ask_name", 1,
                  dumps (JsonVal.obj [("reason",
                    JsonVal.str "I want to book an appointment")])⟩],
                call_logs := [⟨1, "CA1x", "+15550001111", "+15557770000", "root",
                  "I want to book an appointment", "Thanks. What’s your name?"⟩] }) ∧
    (App.lookupSession [⟨"CA1x", 1, "ask_name", 1,
        dumps (JsonVal.obj [("reason", JsonVal.str "I want to book an appointment")])⟩]
      "CA1x").map App.Session.stage = some "ask_name" :=
  ⟨by decide, rfl, rfl⟩

/-- C1 amended: in `src/app.py`'s message mode a root turn performs no
intent classification — every non-empty utterance is stored as `reason`
and the session always moves to `ask_name`.  The claimed behaviour is
that of the backup snapshot (`src/app_backup.py`): there a root turn
with a non-empty utterance classifies it into one of the five intents,
stores it in the session data as `first_utterance`, and moves to
`appt_datetime` on `appointment`, `hours_location` on `hours`,
`pricing_details` on `pricing` and `msg_name` otherwise; away from the
root stage the next stage is a function of the stage alone, so intent
classification influences routing only at root. -/
theorem claim_C1_amended :
    (∀ (st : App.AppState) (sid f t sp : String) (o : App.ResponderOutcome)
       (u : App.UserRow) (row : App.Session) (m : List (String × JsonVal)),
       App.find_user_by_to_number st.users t = some u →
       App.lookupSession st.sessions sid = some row →
       ¬ row.step_count > App.MAX_CALL_STEPS →
       App.mode_of u = "message" →
       App.stage_of row = "root" →
       ¬ pyStrip sp = "" →
       safe_json row.data_json (JsonVal.obj []) = JsonVal.obj m →
       App.handle_input st sid f t sp o =
         some ([TwiMLItem.gather ["Thanks. What’s your name?"], TwiMLItem.say "Goodbye."],
               { st with
                 sessions := App.update_rows st.sessions sid "ask_name" (row.step_count + 1)
                   (dumps (JsonVal.obj (dictUpdate m
                     (dictSet m "reason" (JsonVal.str (pyStrip sp)))))),
                 call_logs := st.call_logs ++
                   [⟨u.id, sid, t, f, "root", pyStrip sp,
                     "Thanks. What’s your name?"⟩] })) ∧
    (∀ (b : Backup.BState) (sid f t sp : String),
       (Backup.get_state b.call_state sid).2.1 = "root" →
       ¬ pyStrip sp = "" →
       (Backup.detect_intent sp = "appointment" ∨ Backup.detect_intent sp = "hours" ∨
        Backup.detect_intent sp = "pricing" ∨ Backup.detect_intent sp = "message" ∨
        Backup.detect_intent sp = "general") ∧
       (∃ tw b2, Backup.handle_input b sid f t sp = some (tw, b2) ∧
          (Backup.get_state b2.call_state sid).2.1 =
            (if Backup.detect_intent sp = "appointment" then "appt_datetime"
             else if Backup.detect_intent sp = "hours" then "hours_location"
             else if Backup.detect_intent sp = "pricing" then "pricing_details"
             else "msg_name") ∧
          (Backup.get_state b2.call_state sid).2.2 =
            JsonVal.obj [("first_utterance", JsonVal.str sp)])) ∧
    (∀ (b' : Backup.BState) (sid' f1 t1 u1 u2 : String) (tw1 tw2 : TwiML)
       (r1 r2 : Backup.BState),
       (Backup.get_state b'.call_state sid').2.1 ≠ "root" →
       ¬ pyStrip u1 = "" → ¬ pyStrip u2 = "" →
       Backup.handle_input b' sid' f1 t1 u1 = some (tw1, r1) →
       Backup.handle_input b' sid' f1 t1 u2 = some (tw2, r2) →
       (Backup.get_state r1.call_state sid').2.1 =
         (Backup.get_state r2.call_state sid').2.1) := by
  refine ⟨?_, ?_, ?_⟩
  · intro st sid f t sp o u row m hu hrow hcap hmode hs1 hsp hdata
    have hup := App.update_session_obj st.sessions sid (some "ask_name")
      (dictSet m "reason" (JsonVal.str (pyStrip sp))) true row m hrow hdata
    simp [App.handle_input, hu, App.get_or_create_session, hrow, hcap, hmode, hs1,
      hsp, hdata, asObj, hup]
  · intro b sid f t sp hstage hsp
    refine ⟨Backup.detect_intent_cases sp, ?_⟩
    rcases hx : Backup.get_state b.call_state sid with ⟨i, stg, dv⟩
    rw [hx] at hstage
    simp only at hstage
    subst hstage
    rcases Backup.detect_intent_cases sp with hi | hi | hi | hi | hi
    · have hrun : Backup.handle_input b sid f t sp =
          some (Backup.make_gather "Sure. What day and time would you like the appointment?",
            ⟨Backup.set_state b.call_state sid (some "appointment") "appt_datetime"
               [("first_utterance", JsonVal.str sp)],
             b.call_logs ++ [⟨sid, f, t, some "appointment", "root", sp,
               "Sure. What day and time would you like the appointment?"⟩],
             b.messages⟩) := by
        simp [Backup.handle_input, hx, hsp, hi]
      refine ⟨_, _, hrun, ?_, ?_⟩
      · rw [Backup.get_state_set_state, hi]
        rfl
      · rw [Backup.get_state_set_state]
    · have hrun : Backup.handle_input b sid f t sp =
          some (Backup.make_gather "What city or location are you asking about?",
            ⟨Backup.set_state b.call_state sid (some "hours") "hours_location"
               [("first_utterance", JsonVal.str sp)],
             b.call_logs ++ [⟨sid, f, t, some "hours", "root", sp,
               "What city or location are you asking about?"⟩],
             b.messages⟩) := by
        simp [Backup.handle_input, hx, hsp, hi]
      refine ⟨_, _, hrun, ?_, ?_⟩
      · rw [Backup.get_state_set_state, hi]
        rfl
      · rw [Backup.get_state_set_state]
    · have hrun : Backup.handle_input b sid f t sp =
          some (Backup.make_gather "Which service are you asking about, and what is the size of your request?",
            ⟨Backup.set_state b.call_state sid (some "pricing") "pricing_details"
               [("first_utterance", JsonVal.str sp)],
             b.call_logs ++ [⟨sid, f, t, some "pricing", "root", sp,
               "Which service are you asking about, and what is the size of your request?"⟩],
             b.messages⟩) := by
        simp [Backup.handle_input, hx, hsp, hi]
      refine ⟨_, _, hrun, ?_, ?_⟩
      · rw [Backup.get_state_set_state, hi]
        rfl
      · rw [Backup.get_state_set_state]
    · have hrun : Backup.handle_input b sid f t sp =
          some (Backup.make_gather "Of course. Please tell me your name.",
            ⟨Backup.set_state b.call_state sid (some "message") "msg_name"
               [("first_utterance", JsonVal.str sp)],
             b.call_logs ++ [⟨sid, f, t, some "message", "root", sp,
               "Of course. Please tell me your name."⟩],
             b.messages⟩) := by
        simp [Backup.handle_input, hx, hsp, hi]
      refine ⟨_, _, hrun, ?_, ?_⟩
      · rw [Backup.get_state_set_state, hi]
        rfl
      · rw [Backup.get_state_set_state]
    · have hrun : Backup.handle_input b sid f t sp =
          some (Backup.make_gather "Thanks. I can help best by taking a message. Please tell me your name.",
            ⟨Backup.set_state b.call_state sid (some "message") "msg_name"
               [("first_utterance", JsonVal.str sp)],
             b.call_logs ++ [⟨sid, f, t, some "general", "root", sp,
               "Thanks. I can help best by taking a message. Please tell me your name."⟩],
             b.messages⟩) := by
        simp [Backup.handle_input, hx, hsp, hi]
      refine ⟨_, _, hrun, ?_, ?_⟩
      · rw [Backup.get_state_set_state, hi]
        rfl
      · rw [Backup.get_state_set_state]
  · intro b' sid' f1 t1 u1 u2 tw1 tw2 r1 r2 hst hu1 hu2 hrun1 hrun2
    rcases hx' : Backup.get_state b'.call_state sid' with ⟨i', stg', dv'⟩
    rw [hx'] at hst
    simp only at hst
    have h1 := (Backup.handle_input_nonroot b' sid' f1 t1 u1 i' stg' dv' hx' hst hu1
      tw1 r1 hrun1).1
    have h2 := (Backup.handle_input_nonroot b' sid' f1 t1 u2 i' stg' dv' hx' hst hu2
      tw2 r2 hrun2).1
    rw [h1, h2]

/-- C1 witness: the same appointment utterance at root drives both
snapshots — `src/app.py` stores it as `reason` and moves to `ask_name`,
while the backup classifies it as `appointment`, stores it as
`first_utterance` and moves to `appt_datetime`. -/
theorem claim_C1_witness :
    (¬ pyStrip "I want to book an appointment for Tuesday at 3pm" = "") ∧
    App.mode_of exUser = "message" ∧
    App.handle_input
        { users := [exUser],
          sessions := [⟨"CA1w", 1, "root", 0, dumps (JsonVal.obj [])⟩],
          call_logs := [] }
        "CA1w" "+15557770000" "+15550001111"
        "I want to book an appointment for Tuesday at 3pm" App.ResponderOutcome.failure
      = some ([TwiMLItem.gather ["Thanks. What’s your name?"], TwiMLItem.say "Goodbye."],
              { users := [exUser],
                sessions := App.update_rows
                  [⟨"CA1w", 1, "root", 0, dumps (JsonVal.obj [])⟩] "CA1w" "ask_name" (0 + 1)
                  (dumps (JsonVal.obj (dictUpdate []
                    (dictSet [] "reason"
                      (JsonVal.str
                        (pyStrip "I want to book an appointment for Tuesday at 3pm")))))),
                call_logs := [] ++
                  [⟨1, "CA1w", "+15550001111", "+15557770000", "root",
                    pyStrip "I want to book an appointment for Tuesday at 3pm",
                    "Thanks. What’s your name?"⟩] }) ∧
    (∃ tw b2,
      Backup.handle_input ⟨[], [], []⟩ "CA1" "+15550000001" "+15550000002"
        "I want to book an appointment for Tuesday at 3pm" = some (tw, b2) ∧
      (Backup.get_state b2.call_state "CA1").2.1 = "appt_datetime" ∧
      (Backup.get_state b2.call_state "CA1").2.2 =
        JsonVal.obj [("first_utterance",
          JsonVal.str "I want to book an appointment for Tuesday at 3pm")]) := by
  refine ⟨by decide, by decide, ?_, ?_⟩
  · exact claim_C1_amended.1
      { users := [exUser],
        sessions := [⟨"CA1w", 1, "root", 0, dumps (JsonVal.obj [])⟩],
        call_logs := [] }
      "CA1w" "+15557770000" "+15550001111"
      "I want to book an appointment for Tuesday at 3pm" App.ResponderOutcome.failure
      exUser ⟨"CA1w", 1, "root", 0, dumps (JsonVal.obj [])⟩ [] rfl rfl (by decide)
      (by decide) (by decide) (by decide) rfl
  · obtain ⟨tw, b2, hrun, hstg, hdata⟩ :=
      (claim_C1_amended.2.1 ⟨[], [], []⟩ "CA1" "+15550000001" "+15550000002"
        "I want to book an appointment for Tuesday at 3pm" rfl (by decide)).2
    refine ⟨tw, b2, hrun, ?_, hdata⟩
    rw [hstg]
    decide

/-- C2 counterexample: a complete message-capture dialog in `src/app.py`
(root → ask_name → ask_callback → ask_time) opened by an
appointment-intent utterance persists no captured-message record at
all: the current snapshot's schema has only `users`, `call_sessions`
and `call_logs` — no messages table — and the completing turn deletes
the session that held the captured fields, so the final database state
keeps only the per-turn call-log lines and zero lead records, not
exactly one. -/
theorem claim_C2_counterexample :
    Backup.detect_intent "I need to book an appointment" = "appointment" ∧
    App.handle_input
        { users := [exUser], sessions := [], call_logs := [] }
        "CA2x" "+15557770000" "+15550001111" "I need to book an appointment"
        App.ResponderOutcome.failure
      = some ([TwiMLItem.gather ["Thanks. What’s your name?"], TwiMLItem.say "Goodbye."],
              { users := [exUser],
                sessions := [⟨"CA2x", 1, "ask_name", 1,
                  dumps (JsonVal.obj [("reason",
                    JsonVal.str "I need to book an appointment")])⟩],
                call_logs := [⟨1, "CA2x", "+15550001111", "+15557770000", "root",
                  "I need to book an appointment", "Thanks. What’s your name?"⟩] }) ∧
    App.handle_input
        { users := [exUser],
          sessions := [⟨"CA2x", 1, "ask_name", 1,
            dumps (JsonVal.obj [("reason",
              JsonVal.str "I need to book an appointment")])⟩],
          call_logs := [⟨1, "CA2x", "+15550001111", "+15557770000", "root",
            "I need to book an appointment", "Thanks. What’s your name?"⟩] }
        "CA2x" "+15557770000" "+15550001111" "Dana" App.ResponderOutcome.failure
      = some ([TwiMLItem.gather ["Thanks. What’s the best callback number?"],
               TwiMLItem.say "Goodbye."],
              { users := [exUser],
                sessions := [⟨"CA2x", 1, "ask_callback", 2,
                  dumps (JsonVal.obj [("reason",
                    JsonVal.str "I need to book an appointment"),
                    ("name", JsonVal.str "Dana")])⟩],
                call_logs := [⟨1, "CA2x", "+15550001111", "+15557770000", "root",
                  "I need to book an appointment", "Thanks. What’s your name?"⟩,
                  ⟨1, "CA2x", "+15550001111", "+15557770000", "ask_name",
                    "Dana", "Thanks. What’s the best callback number?"⟩] }) ∧
    App.handle_input
        { users := [exUser],
          sessions := [⟨"CA2x", 1, "ask_callback", 2,
            dumps (JsonVal.obj [("reason",
              JsonVal.str "I need to book an appointment"),
              ("name", JsonVal.str "Dana")])⟩],
          call_logs := [⟨1, "CA2x", "+15550001111", "+15557770000", "root",
            "I need to book an appointment", "Thanks. What’s your name?"⟩,
            ⟨1, "CA2x", "+15550001111", "+15557770000", "ask_name",
              "Dana", "Thanks. What’s the best callback number?"⟩] }
        "CA2x" "+15557770000" "+15550001111" "555 0100" App.ResponderOutcome.failure
      = some ([TwiMLItem.gather ["Got it. What’s a good time to call you back?"],
               TwiMLItem.say "Goodbye."],
              { users := [exUser],
                sessions := [⟨"CA2x", 1, "ask_time", 3,
                  dumps (JsonVal.obj [("reason",
                    JsonVal.str "I need to book an appointment"),
                    ("name", JsonVal.str "Dana"),
                    ("callback", JsonVal.str "555 0100")])⟩],
                call_logs := [⟨1, "CA2x", "+15550001111", "+15557770000", "root",
                  "I need to book an appointment", "Thanks. What’s your name?"⟩,
                  ⟨1, "CA2x", "+15550001111", "+15557770000", "ask_name",
                    "Dana", "Thanks. What’s the best callback number?"⟩,
                  ⟨1, "CA2x", "+15550001111", "+15557770000", "ask_callback",
                    "555 0100", "Got it. What’s a good time to call you back?"⟩] }) ∧
    App.handle_input
        { users := [exUser],
          sessions := [⟨"CA2x", 1, "ask_time", 3,
            dumps (JsonVal.obj [("reason",
              JsonVal.str "I need to book an appointment"),
              ("name", JsonVal.str "Dana"),
              ("callback", JsonVal.str "555 0100")])⟩],
          call_logs := [⟨1, "CA2x", "+15550001111", "+15557770000", "root",
            "I need to book an appointment", "Thanks. What’s your name?"⟩,
            ⟨1, "CA2x", "+15550001111", "+15557770000", "ask_name",
              "Dana", "Thanks. What’s the best callback number?"⟩,
            ⟨1, "CA2x", "+15550001111", "+15557770000", "ask_callback",
              "555 0100", "Got it. What’s a good time to call you back?"⟩] }
        "CA2x" "+15557770000" "+15550001111" "tomorrow morning"
        App.ResponderOutcome.failure
      = some ([TwiMLItem.say "Perfect. We’ll get back to you soon. Goodbye.",
               TwiMLItem.hangup],
              { users := [exUser],
                sessions := [],
                call_logs := [⟨1, "CA2x", "+15550001111", "+15557770000", "root",
                  "I need to book an appointment", "Thanks. What’s your name?"⟩,
                  ⟨1, "CA2x", "+15550001111", "+15557770000", "ask_name",
                    "Dana", "Thanks. What’s the best callback number?"⟩,
                  ⟨1, "CA2x", "+15550001111", "+15557770000", "ask_callback",
                    "555 0100", "Got it. What’s a good time to call you back?"⟩,
                  ⟨1, "CA2x", "+15550001111", "+15557770000", "ask_time",
                    "tomorrow morning",
                    "Perfect. We’ll get back to you soon. Goodbye."⟩] }) :=
  ⟨by decide, rfl, rfl, rfl, rfl⟩

/-- C2 amended: the claimed capture behaviour is that of the backup
snapshot (`src/app_backup.py`): its full appointment flow
(`root` → `appt_datetime` → `appt_name` → `appt_phone`) persists
exactly one captured message, tagged `appointment`, with the name,
phone, appointment time and first utterance populated, deletes the
session, and every turn only ever appends to the `messages` table, so
the record is never updated afterward.  In `src/app.py` a completed
message-mode capture dialog persists no captured-message record: the
completing `ask_time` turn writes the captured fields into the session,
immediately deletes that session, and appends only a call-log line —
the schema has no messages table. -/
theorem claim_C2_amended :
    (∀ (st : Backup.BState) (sid f t u0 u1 u2 u3 : String),
      Backup.lookup_state st.call_state sid = none →
      Backup.detect_intent u0 = "appointment" →
      ¬ pyStrip u0 = "" → ¬ pyStrip u1 = "" →
      ¬ pyStrip u2 = "" → ¬ pyStrip u3 = "" →
      ∃ tw0 s1 tw1 s2 tw2 s3 tw3 s4,
        Backup.handle_input st sid f t u0 = some (tw0, s1) ∧
        Backup.handle_input s1 sid f t u1 = some (tw1, s2) ∧
        Backup.handle_input s2 sid f t u2 = some (tw2, s3) ∧
        Backup.handle_input s3 sid f t u3 = some (tw3, s4) ∧
        s1.messages = st.messages ∧ s2.messages = st.messages ∧
        s3.messages = st.messages ∧
        s4.messages = st.messages ++
          [⟨sid, f, pyStrip u2, pyStrip u3,
            "Appointment request: " ++ pyStrip u1 ++ " | First: " ++ u0,
            "appointment"⟩] ∧
        Backup.lookup_state s4.call_state sid = none) ∧
    (∀ (b : Backup.BState) (sid2 f2 t2 sp : String) (tw : TwiML) (b2 : Backup.BState),
      Backup.handle_input b sid2 f2 t2 sp = some (tw, b2) →
      ∃ tail, b2.messages = b.messages ++ tail) ∧
    (∀ (st : App.AppState) (sid f t sp : String) (o : App.ResponderOutcome)
       (u : App.UserRow) (row : App.Session) (m : List (String × JsonVal)),
       App.find_user_by_to_number st.users t = some u →
       App.lookupSession st.sessions sid = some row →
       ¬ row.step_count > App.MAX_CALL_STEPS →
       App.mode_of u = "message" →
       App.stage_of row = "ask_time" →
       ¬ pyStrip sp = "" →
       safe_json row.data_json (JsonVal.obj []) = JsonVal.obj m →
       App.handle_input st sid f t sp o =
         some ([TwiMLItem.say "Perfect. We’ll get back to you soon. Goodbye.",
                TwiMLItem.hangup],
               { st with
                 sessions := App.delete_session
                   (App.update_rows st.sessions sid "done" (row.step_count + 1)
                     (dumps (JsonVal.obj (dictUpdate m
                       (dictSet m "preferred_time" (JsonVal.str (pyStrip sp))))))) sid,
                 call_logs := st.call_logs ++
                   [⟨u.id, sid, t, f, "ask_time", pyStrip sp,
                     "Perfect. We’ll get back to you soon. Goodbye."⟩] }) ∧
       App.lookupSession
         (App.delete_session
           (App.update_rows st.sessions sid "done" (row.step_count + 1)
             (dumps (JsonVal.obj (dictUpdate m
               (dictSet m "preferred_time" (JsonVal.str (pyStrip sp))))))) sid)
         sid = none) := by
  refine ⟨?_, ?_, ?_⟩
  · intro st sid f t u0 u1 u2 u3 h0 hi h0ne h1ne h2ne h3ne
    have e1 : Backup.handle_input st sid f t u0 =
        some (Backup.make_gather "Sure. What day and time would you like the appointment?",
          ⟨Backup.set_state st.call_state sid (some "appointment") "appt_datetime"
             [("first_utterance", JsonVal.str u0)],
           st.call_logs ++ [⟨sid, f, t, some "appointment", "root", u0,
             "Sure. What day and time would you like the appointment?"⟩],
           st.messages⟩) := by
      simp [Backup.handle_input, Backup.get_state, h0, h0ne, hi]
    have e2 : Backup.handle_input
        (⟨Backup.set_state st.call_state sid (some "appointment") "appt_datetime"
            [("first_utterance", JsonVal.str u0)],
          st.call_logs ++ [⟨sid, f, t, some "appointment", "root", u0,
            "Sure. What day and time would you like the appointment?"⟩],
          st.messages⟩ : Backup.BState) sid f t u1 =
        some (Backup.make_gather "Got it. Please tell me your name.",
          ⟨Backup.set_state
             (Backup.set_state st.call_state sid (some "appointment") "appt_datetime"
               [("first_utterance", JsonVal.str u0)]) sid
             (some "appointment") "appt_name"
             [("first_utterance", JsonVal.str u0),
              ("appt_datetime", JsonVal.str (pyStrip u1))],
           (st.call_logs ++ [⟨sid, f, t, some "appointment", "root", u0,
              "Sure. What day and time would you like the appointment?"⟩]) ++
             [⟨sid, f, t, some "appointment", "appt_datetime", u1,
               "Got it. Please tell me your name."⟩],
           st.messages⟩) := by
      simp [Backup.handle_input, Backup.get_state_set_state, h1ne, asObj, dictSet]
    have e3 : Backup.handle_input
        (⟨Backup.set_state
            (Backup.set_state st.call_state sid (some "appointment") "appt_datetime"
              [("first_utterance", JsonVal.str u0)]) sid
            (some "appointment") "appt_name"
            [("first_utterance", JsonVal.str u0),
             ("appt_datetime", JsonVal.str (pyStrip u1))],
          (st.call_logs ++ [⟨sid, f, t, some "appointment", "root", u0,
             "Sure. What day and time would you like the appointment?"⟩]) ++
            [⟨sid, f, t, some "appointment", "appt_datetime", u1,
              "Got it. Please tell me your name."⟩],
          st.messages⟩ : Backup.BState) sid f t u2 =
        some (Backup.make_gather "Thanks. Finally, please confirm the best phone number for a callback.",
          ⟨Backup.set_state
             (Backup.set_state
               (Backup.set_state st.call_state sid (some "appointment") "appt_datetime"
                 [("first_utterance", JsonVal.str u0)]) sid
               (some "appointment") "appt_name"
               [("first_utterance", JsonVal.str u0),
                ("appt_datetime", JsonVal.str (pyStrip u1))]) sid
             (some "appointment") "appt_phone"
             [("first_utterance", JsonVal.str u0),
              ("appt_datetime", JsonVal.str (pyStrip u1)),
              ("name", JsonVal.str (pyStrip u2))],
           ((st.call_logs ++ [⟨sid, f, t, some "appointment", "root", u0,
               "Sure. What day and time would you like the appointment?"⟩]) ++
              [⟨sid, f, t, some "appointment", "appt_datetime", u1,
                "Got it. Please tell me your name."⟩]) ++
             [⟨sid, f, t, some "appointment", "appt_name", u2,
               "Thanks. Finally, please confirm the best phone number for a callback."⟩],
           st.messages⟩) := by
      simp [Backup.handle_input, Backup.get_state_set_state, h2ne, asObj, dictSet]
    have e4 : Backup.handle_input
        (⟨Backup.set_state
            (Backup.set_state
              (Backup.set_state st.call_state sid (some "appointment") "appt_datetime"
                [("first_utterance", JsonVal.str u0)]) sid
              (some "appointment") "appt_name"
              [("first_utterance", JsonVal.str u0),
               ("appt_datetime", JsonVal.str (pyStrip u1))]) sid
            (some "appointment") "appt_phone"
            [("first_utterance", JsonVal.str u0),
             ("appt_datetime", JsonVal.str (pyStrip u1)),
             ("name", JsonVal.str (pyStrip u2))],
          ((st.call_logs ++ [⟨sid, f, t, some "appointment", "root", u0,
              "Sure. What day and time would you like the appointment?"⟩]) ++
             [⟨sid, f, t, some "appointment", "appt_datetime", u1,
               "Got it. Please tell me your name."⟩]) ++
            [⟨sid, f, t, some "appointment", "appt_name", u2,
              "Thanks. Finally, please confirm the best phone number for a callback."⟩],
          st.messages⟩ : Backup.BState) sid f t u3 =
        some ([TwiMLItem.say "Perfect. I have your appointment request and contact details. The team will confirm shortly. Goodbye."],
          ⟨Backup.clear_state
             (Backup.set_state
               (Backup.set_state
                 (Backup.set_state st.call_state sid (some "appointment") "appt_datetime"
                   [("first_utterance", JsonVal.str u0)]) sid
                 (some "appointment") "appt_name"
                 [("first_utterance", JsonVal.str u0),
                  ("appt_datetime", JsonVal.str (pyStrip u1))]) sid
               (some "appointment") "appt_phone"
               [("first_utterance", JsonVal.str u0),
                ("appt_datetime", JsonVal.str (pyStrip u1)),
                ("name", JsonVal.str (pyStrip u2))]) sid,
           (((st.call_logs ++ [⟨sid, f, t, some "appointment", "root", u0,
                "Sure. What day and time would you like the appointment?"⟩]) ++
               [⟨sid, f, t, some "appointment", "appt_datetime", u1,
                 "Got it. Please tell me your name."⟩]) ++
              [⟨sid, f, t, some "appointment", "appt_name", u2,
                "Thanks. Finally, please confirm the best phone number for a callback."⟩]) ++
             [⟨sid, f, t, some "appointment", "appt_phone", u3,
               "Perfect. I have your appointment request and contact details. The team will confirm shortly. Goodbye."⟩],
           st.messages ++
             [⟨sid, f, pyStrip u2, pyStrip u3,
               "Appointment request: " ++ pyStrip u1 ++ " | First: " ++ u0,
               "appointment"⟩]⟩) := by
      simp [Backup.handle_input, Backup.get_state_set_state, h3ne, asObj, dictSet,
        Backup.getStr, dictGet]
    exact ⟨_, _, _, _, _, _, _, _, e1, e2, e3, e4, rfl, rfl, rfl, rfl,
      Backup.lookup_clear_state_self _ sid⟩
  · intro b sid2 f2 t2 sp tw b2 hrun
    rcases hx : Backup.get_state b.call_state sid2 with ⟨i, stg, dv⟩
    by_cases hsp : pyStrip sp = ""
    · by_cases hst : stg = "root"
      · simp [Backup.handle_input, hx, hsp, hst] at hrun
        obtain ⟨-, hb2⟩ := hrun
        subst hb2
        exact ⟨[], by simp⟩
      · simp [Backup.handle_input, hx, hsp, hst] at hrun
        obtain ⟨-, hb2⟩ := hrun
        subst hb2
        exact ⟨[], by simp⟩
    · by_cases hst : stg = "root"
      · rcases Backup.detect_intent_cases sp with hi2 | hi2 | hi2 | hi2 | hi2 <;>
          · simp [Backup.handle_input, hx, hsp, hst, hi2] at hrun
            obtain ⟨-, hb2⟩ := hrun
            subst hb2
            exact ⟨[], by simp⟩
      · exact (Backup.handle_input_nonroot b sid2 f2 t2 sp i stg dv hx hst hsp
          tw b2 hrun).2.2
  · intro st sid f t sp o u row m hu hrow hcap hmode hstage hsp hdata
    have hup := App.update_session_obj st.sessions sid (some "done")
      (dictSet m "preferred_time" (JsonVal.str (pyStrip sp))) true row m hrow hdata
    refine ⟨?_, App.lookupSession_delete_self _ sid⟩
    simp [App.handle_input, hu, App.get_or_create_session, hrow, hcap, hmode, hstage,
      hsp, hdata, asObj, hup]

/-- C2 witness: a concrete four-turn appointment call in the backup
producing exactly the one captured message with all fields populated,
and a concrete completing `ask_time` turn in `src/app.py` that deletes
the captured session and persists no lead record. -/
theorem claim_C2_witness :
    (Backup.lookup_state (Backup.BState.mk [] [] []).call_state "CA2" = none ∧
     Backup.detect_intent "Book an appointment please" = "appointment" ∧
     ∃ tw0 s1 tw1 s2 tw2 s3 tw3 s4,
       Backup.handle_input ⟨[], [], []⟩ "CA2" "+15550000003" "+15550000004"
         "Book an appointment please" = some (tw0, s1) ∧
       Backup.handle_input s1 "CA2" "+15550000003" "+15550000004"
         "Tuesday at 3pm" = some (tw1, s2) ∧
       Backup.handle_input s2 "CA2" "+15550000003" "+15550000004"
         "Dana" = some (tw2, s3) ∧
       Backup.handle_input s3 "CA2" "+15550000003" "+15550000004"
         "555 0100" = some (tw3, s4) ∧
       s4.messages = [⟨"CA2", "+15550000003", "Dana", "555 0100",
         "Appointment request: Tuesday at 3pm | First: Book an appointment please",
         "appointment"⟩] ∧
       Backup.lookup_state s4.call_state "CA2" = none) ∧
    (App.stage_of ⟨"CA2w", 1, "ask_time", 3,
        dumps (JsonVal.obj [("reason", JsonVal.str "hi"),
          ("name", JsonVal.str "Dana"),
          ("callback", JsonVal.str "555 0100")])⟩ = "ask_time" ∧
     (¬ pyStrip "tomorrow morning" = "") ∧
     App.handle_input
         { users := [exUser],
           sessions := [⟨"CA2w", 1, "ask_time", 3,
             dumps (JsonVal.obj [("reason", JsonVal.str "hi"),
               ("name", JsonVal.str "Dana"),
               ("callback", JsonVal.str "555 0100")])⟩],
           call_logs := [] }
         "CA2w" "+15557770000" "+15550001111" "tomorrow morning"
         App.ResponderOutcome.failure
       = some ([TwiMLItem.say "Perfect. We’ll get back to you soon. Goodbye.",
                TwiMLItem.hangup],
               { users := [exUser],
                 sessions := App.delete_session
                   (App.update_rows
                     [⟨"CA2w", 1, "ask_time", 3,
                       dumps (JsonVal.obj [("reason", JsonVal.str "hi"),
                         ("name", JsonVal.str "Dana"),
                         ("callback", JsonVal.str "555 0100")])⟩]
                     "CA2w" "done" (3 + 1)
                     (dumps (JsonVal.obj
                       (dictUpdate [("reason", JsonVal.str "hi"),
                           ("name", JsonVal.str "Dana"),
                           ("callback", JsonVal.str "555 0100")]
                         (dictSet [("reason", JsonVal.str "hi"),
                             ("name", JsonVal.str "Dana"),
                             ("callback", JsonVal.str "555 0100")]
                           "preferred_time"
                           (JsonVal.str (pyStrip "tomorrow morning"))))))) "CA2w",
                 call_logs := [] ++
                   [⟨1, "CA2w", "+15550001111", "+15557770000", "ask_time",
                     pyStrip "tomorrow morning",
                     "Perfect. We’ll get back to you soon. Goodbye."⟩] }) ∧
     App.lookupSession
       (App.delete_session
         (App.update_rows
           [⟨"CA2w", 1, "ask_time", 3,
             dumps (JsonVal.obj [("reason", JsonVal.str "hi"),
               ("name", JsonVal.str "Dana"),
               ("callback", JsonVal.str "555 0100")])⟩]
           "CA2w" "done" (3 + 1)
           (dumps (JsonVal.obj
             (dictUpdate [("reason", JsonVal.str "hi"),
                 ("name", JsonVal.str "Dana"),
                 ("callback", JsonVal.str "555 0100")]
               (dictSet [("reason", JsonVal.str "hi"),
                   ("name", JsonVal.str "Dana"),
                   ("callback", JsonVal.str "555 0100")]
                 "preferred_time"
                 (JsonVal.str (pyStrip "tomorrow morning"))))))) "CA2w")
       "CA2w" = none) := by
  constructor
  · refine ⟨rfl, by decide, ?_⟩
    obtain ⟨tw0, s1, tw1, s2, tw2, s3, tw3, s4, e1, e2, e3, e4, -, -, -, m4, hclr⟩ :=
      claim_C2_amended.1 ⟨[], [], []⟩ "CA2" "+15550000003" "+15550000004"
        "Book an appointment please" "Tuesday at 3pm" "Dana" "555 0100" rfl (by decide)
        (by decide) (by decide) (by decide) (by decide)
    refine ⟨tw0, s1, tw1, s2, tw2, s3, tw3, s4, e1, e2, e3, e4, ?_, hclr⟩
    rw [m4]
    rfl
  · have h := claim_C2_amended.2.2
      { users := [exUser],
        sessions := [⟨"CA2w", 1, "ask_time", 3,
          dumps (JsonVal.obj [("reason", JsonVal.str "hi"),
            ("name", JsonVal.str "Dana"),
            ("callback", JsonVal.str "555 0100")])⟩],
        call_logs := [] }
      "CA2w" "+15557770000" "+15550001111" "tomorrow morning"
      App.ResponderOutcome.failure exUser
      ⟨"CA2w", 1, "ask_time", 3,
        dumps (JsonVal.obj [("reason", JsonVal.str "hi"),
          ("name", JsonVal.str "Dana"),
          ("callback", JsonVal.str "555 0100")])⟩
      [("reason", JsonVal.str "hi"), ("name", JsonVal.str "Dana"),
        ("callback", JsonVal.str "555 0100")]
      rfl rfl (by decide) (by decide) (by decide) (by decide) rfl
    exact ⟨by decide, by decide, h.1, h.2⟩


/-- Inverting `asObj`. -/
theorem asObj_some {v : JsonVal} {m : List (String × JsonVal)} (h : asObj v = some m) :
    v = JsonVal.obj m := by
  cases v <;> simp only [asObj, Option.some.injEq, reduceCtorEq] at h
  rw [h]

/-- `update_session` with a patch raises (returns `none`) when the
stored data is valid JSON that is not an object. -/
theorem App.update_session_not_obj (st : App.SessionStore) (sid : String)
    (stg : Option String) (patch : List (String × JsonVal)) (b : Bool)
    (row : App.Session)
    (hrow : App.lookupSession st sid = some row)
    (hm : asObj (safe_json row.data_json (JsonVal.obj [])) = none) :
    App.update_session st sid stg (some patch) b = none := by
  rw [App.update_session, hrow]
  cases hv : safe_json row.data_json (JsonVal.obj []) with
  | obj m => rw [hv] at hm; simp [asObj] at hm
  | null => simp only [hv]
  | bool b2 => simp only [hv]
  | num n => simp only [hv]
  | str s => simp only [hv]
  | arr xs => simp only [hv]

/-- C8: `get_or_create_session` is idempotent — a second call with the
same call identifier returns the same session (same stage and data) and
the same store, creating no new record. -/
theorem claim_C8_get_or_create_idempotent (st : App.SessionStore) (sid : String)
    (uid : Nat) :
    App.get_or_create_session (App.get_or_create_session st sid uid).2 sid uid =
      App.get_or_create_session st sid uid := by
  cases h : App.lookupSession st sid with
  | some row => simp [App.get_or_create_session, h]
  | none =>
      have h2 := App.lookupSession_append_none st sid
        ⟨sid, uid, "root", 0, dumps (JsonVal.obj [])⟩ h
      simp only [if_pos rfl] at h2
      simp [App.get_or_create_session, h, h2]

/-- C9: `update_session` on a call identifier with no session record is
a silent no-op — it returns normally, creates no record, and leaves the
store exactly as it was, so a retried turn cannot resurrect a deleted
session through `update_session`. -/
theorem claim_C9_update_absent_noop (st : App.SessionStore) (sid : String)
    (stg : Option String) (data : Option (List (String × JsonVal))) (b : Bool)
    (h : App.lookupSession st sid = none) :
    App.update_session st sid stg data b = some st := by
  rw [App.update_session, h]

/-- C9 witness: updating a missing session in an empty store returns
the empty store unchanged. -/
theorem claim_C9_witness :
    App.lookupSession [] "CA9" = none ∧
    App.update_session [] "CA9" (some "done") (some [("name", JsonVal.str "Dana")]) true
      = some [] :=
  ⟨rfl, claim_C9_update_absent_noop [] "CA9" (some "done")
    (some [("name", JsonVal.str "Dana")]) true rfl⟩

/-- C7 counterexample: in the backup snapshot a root turn replaces the
session data wholesale (`set_state` stores the new dict, it does not
merge), so a key present before the turn ("color") is gone after it —
refuting "no key is ever removed" for every turn and every session. -/
theorem claim_C7_counterexample :
    Backup.handle_input
        ⟨[⟨"CA7", none, "root", dumps (JsonVal.obj [("color", JsonVal.str "blue")])⟩],
         [], []⟩
        "CA7" "+15551230001" "+15551230002" "hello there"
      = some ([TwiMLItem.gather ["Thanks. I can help best by taking a message. Please tell me your name."],
               TwiMLItem.say "I did not catch that. Goodbye."],
              { call_state := [⟨"CA7", some "message", "msg_name",
                  dumps (JsonVal.obj [("first_utterance", JsonVal.str "hello there")])⟩],
                call_logs := [⟨"CA7", "+15551230001", "+15551230002", some "general", "root",
                  "hello there",
                  "Thanks. I can help best by taking a message. Please tell me your name."⟩],
                messages := [] }) ∧
    dictGet [("first_utterance", JsonVal.str "hello there")] "color" = none :=
  ⟨rfl, rfl⟩

/-- C7 amended: the current snapshot's `update_session` merges the data
patch key-wise — keys present before remain present, patch keys are
added or overwritten, keys outside the patch keep their values; in the
backup snapshot, non-root turns only extend the accumulated dict (keys
present before the turn remain present while the session exists), but
`set_state` itself overwrites the stored data, and the root turn resets
it to just the first utterance. -/
theorem claim_C7_amended :
    (∀ (st : App.SessionStore) (sid : String) (stg : Option String)
       (patch : List (String × JsonVal)) (st2 : App.SessionStore) (row : App.Session)
       (m : List (String × JsonVal)),
       App.update_session st sid stg (some patch) true = some st2 →
       App.lookupSession st sid = some row →
       safe_json row.data_json (JsonVal.obj []) = JsonVal.obj m →
       ∃ row2, App.lookupSession st2 sid = some row2 ∧
         loads row2.data_json = some (JsonVal.obj (dictUpdate m patch)) ∧
         (∀ k v, dictGet m k = some v → ∃ w, dictGet (dictUpdate m patch) k = some w) ∧
         (∀ k v, dictGet patch k = some v → ∃ w, dictGet (dictUpdate m patch) k = some w) ∧
         (∀ k, dictGet patch k = none →
            dictGet (dictUpdate m patch) k = dictGet m k)) ∧
    (∀ (b : Backup.BState) (sid f t sp : String) (tw : TwiML) (b2 : Backup.BState)
       (m : List (String × JsonVal)),
       (Backup.get_state b.call_state sid).2.1 ≠ "root" →
       (Backup.get_state b.call_state sid).2.2 = JsonVal.obj m →
       Backup.handle_input b sid f t sp = some (tw, b2) →
       ∀ r2, Backup.lookup_state b2.call_state sid = some r2 →
       ∀ k v, dictGet m k = some v →
       ∃ m2 w, loads r2.data_json = some (JsonVal.obj m2) ∧ dictGet m2 k = some w) := by
  constructor
  · intro st sid stg patch st2 row m h hrow hm
    rw [App.update_session_obj st sid stg patch true row m hrow hm] at h
    simp only [Option.some.injEq] at h
    subst h
    refine ⟨_, App.lookupSession_update_rows_self st sid _ _ _ row hrow, rfl, ?_, ?_, ?_⟩
    · intro k v hk
      exact dictGet_dictUpdate_pres patch m k v hk
    · intro k v hk
      exact dictGet_dictUpdate_patch patch m k v hk
    · intro k hk
      exact dictGet_dictUpdate_none patch m k hk
  · intro b sid f t sp tw b2 m hst hdv hrun r2 hr2 k v hk
    rcases hx : Backup.get_state b.call_state sid with ⟨i, stg, dv⟩
    rw [hx] at hst hdv
    simp only at hst hdv
    subst hdv
    by_cases hsp : pyStrip sp = ""
    · simp [Backup.handle_input, hx, hsp, hst] at hrun
      obtain ⟨-, hb2⟩ := hrun
      subst hb2
      rw [Backup.lookup_clear_state_self] at hr2
      exact absurd hr2 (by simp)
    · obtain ⟨-, hshape, -⟩ := Backup.handle_input_nonroot b sid f t sp i stg
        (JsonVal.obj m) hx hst hsp tw b2 hrun
      rcases hshape with ⟨m2, key, i2, hm2, hset⟩ | hclr
      · have hm2' : m2 = m := by
          simpa [asObj] using hm2.symm
        subst hm2'
        rw [hset, Backup.lookup_set_state_self] at hr2
        simp only [Option.some.injEq] at hr2
        subst hr2
        obtain ⟨w, hw⟩ := dictGet_dictSet_pres m2 key k
          (JsonVal.str (pyStrip sp)) v hk
        exact ⟨_, w, rfl, hw⟩
      · rw [hclr, Backup.lookup_clear_state_self] at hr2
        exact absurd hr2 (by simp)

/-- C7 witness: a concrete merge — updating a session holding
`reason` with a `name` patch keeps `reason` and adds `name`. -/
theorem claim_C7_witness :
    (App.update_session
        [⟨"CA7w", 1, "ask_name", 1, dumps (JsonVal.obj [("reason", JsonVal.str "hi")])⟩]
        "CA7w" (some "ask_callback") (some [("name", JsonVal.str "Dana")]) true
      = some [⟨"CA7w", 1, "ask_callback", 2,
          dumps (JsonVal.obj [("reason", JsonVal.str "hi"), ("name", JsonVal.str "Dana")])⟩]) ∧
    (∃ row2,
      App.lookupSession [⟨"CA7w", 1, "ask_callback", 2,
          dumps (JsonVal.obj [("reason", JsonVal.str "hi"), ("name", JsonVal.str "Dana")])⟩]
        "CA7w" = some row2 ∧
      loads row2.data_json = some (JsonVal.obj
        (dictUpdate [("reason", JsonVal.str "hi")] [("name", JsonVal.str "Dana")])) ∧
      (∀ k v, dictGet [("reason", JsonVal.str "hi")] k = some v →
         ∃ w, dictGet (dictUpdate [("reason", JsonVal.str "hi")]
           [("name", JsonVal.str "Dana")]) k = some w) ∧
      (∀ k v, dictGet [("name", JsonVal.str "Dana")] k = some v →
         ∃ w, dictGet (dictUpdate [("reason", JsonVal.str "hi")]
           [("name", JsonVal.str "Dana")]) k = some w) ∧
      (∀ k, dictGet [("name", JsonVal.str "Dana")] k = none →
         dictGet (dictUpdate [("reason", JsonVal.str "hi")]
           [("name", JsonVal.str "Dana")]) k = dictGet [("reason", JsonVal.str "hi")] k)) :=
  ⟨rfl, claim_C7_amended.1
    [⟨"CA7w", 1, "ask_name", 1, dumps (JsonVal.obj [("reason", JsonVal.str "hi")])⟩]
    "CA7w" (some "ask_callback") [("name", JsonVal.str "Dana")]
    [⟨"CA7w", 1, "ask_callback", 2,
      dumps (JsonVal.obj [("reason", JsonVal.str "hi"), ("name", JsonVal.str "Dana")])⟩]
    ⟨"CA7w", 1, "ask_name", 1, dumps (JsonVal.obj [("reason", JsonVal.str "hi")])⟩
    [("reason", JsonVal.str "hi")] rfl rfl rfl⟩


/-- C3 counterexample: a session whose step counter (9) already exceeds
`MAX_CALL_STEPS` (8) hits the cap check in the `/voice` webhook: the
turn speaks the apology and hangs up — it detects the runaway — but the
session record is still in the store afterwards, refuting "the turn
that detects this ... deletes the session". -/
theorem claim_C3_counterexample :
    (App.voice
        { users := [exUser],
          sessions := [⟨"CA3", 1, "ask_name", 9, dumps (JsonVal.obj [])⟩],
          call_logs := [] } "CA3" "+15557770000" "+15550001111").1
      = [TwiMLItem.say "Sorry, something went wrong. Please call back later.",
         TwiMLItem.hangup] ∧
    App.lookupSession
        (App.voice
          { users := [exUser],
            sessions := [⟨"CA3", 1, "ask_name", 9, dumps (JsonVal.obj [])⟩],
            call_logs := [] } "CA3" "+15557770000" "+15550001111").2.sessions "CA3"
      = some ⟨"CA3", 1, "ask_name", 9, dumps (JsonVal.obj [])⟩ :=
  ⟨rfl, rfl⟩

/-- C3 amended: when the cap is exceeded, the `/handle-input` turn
speaks the apology, hangs up and deletes the session (no record on the
next lookup); the `/voice` turn speaks the apology and hangs up but
leaves the session in the store; a `/handle-input` turn at the terminal
stage `done` speaks the closing line, hangs up and deletes the
session. -/
theorem claim_C3_amended (st : App.AppState) (sid f t sp : String)
    (o : App.ResponderOutcome) (u : App.UserRow)
    (hu : App.find_user_by_to_number st.users t = some u) :
    (∀ row, App.lookupSession st.sessions sid = some row →
       row.step_count > App.MAX_CALL_STEPS →
       App.handle_input st sid f t sp o =
         some ([TwiMLItem.say "Sorry, something went wrong. Please call back later.",
                TwiMLItem.hangup],
               { st with sessions := App.delete_session st.sessions sid }) ∧
       App.lookupSession (App.delete_session st.sessions sid) sid = none) ∧
    (∀ row, App.lookupSession st.sessions sid = some row →
       row.step_count > App.MAX_CALL_STEPS →
       App.voice st sid f t =
         ([TwiMLItem.say "Sorry, something went wrong. Please call back later.",
           TwiMLItem.hangup], st) ∧
       App.lookupSession st.sessions sid = some row) ∧
    (∀ row, App.lookupSession st.sessions sid = some row →
       ¬ row.step_count > App.MAX_CALL_STEPS →
       App.stage_of row = "done" → ¬ pyStrip sp = "" → App.mode_of u = "message" →
       App.handle_input st sid f t sp o =
         some ([TwiMLItem.say "Thanks for calling. Goodbye.", TwiMLItem.hangup],
               { st with sessions := App.delete_session st.sessions sid,
                         call_logs := st.call_logs ++
                           [⟨u.id, sid, t, f, "done", pyStrip sp,
                             "Thanks for calling. Goodbye."⟩] }) ∧
       App.lookupSession (App.delete_session st.sessions sid) sid = none) := by
  refine ⟨?_, ?_, ?_⟩
  · intro row hrow hcap
    constructor
    · simp [App.handle_input, hu, App.get_or_create_session, hrow, hcap]
    · exact App.lookupSession_delete_self st.sessions sid
  · intro row hrow hcap
    constructor
    · simp [App.voice, hu, App.get_or_create_session, hrow, hcap]
    · exact hrow
  · intro row hrow hcap hstage hsp hmode
    constructor
    · simp [App.handle_input, hu, App.get_or_create_session, hrow, hcap, hstage, hsp, hmode]
    · exact App.lookupSession_delete_self st.sessions sid

/-- C3 witness: the cap-exceeded conjuncts at a concrete store. -/
theorem claim_C3_witness :
    App.find_user_by_to_number [exUser] "+15550001111" = some exUser ∧
    App.lookupSession [⟨"CA3w", 1, "ask_name", 9, dumps (JsonVal.obj [])⟩] "CA3w"
      = some ⟨"CA3w", 1, "ask_name", 9, dumps (JsonVal.obj [])⟩ ∧
    (9 : Nat) > App.MAX_CALL_STEPS ∧
    (App.handle_input
        { users := [exUser],
          sessions := [⟨"CA3w", 1, "ask_name", 9, dumps (JsonVal.obj [])⟩],
          call_logs := [] } "CA3w" "+15557770000" "+15550001111" "hello"
        App.ResponderOutcome.failure =
       some ([TwiMLItem.say "Sorry, something went wrong. Please call back later.",
              TwiMLItem.hangup],
             { users := [exUser],
               sessions := App.delete_session
                 [⟨"CA3w", 1, "ask_name", 9, dumps (JsonVal.obj [])⟩] "CA3w",
               call_logs := [] }) ∧
     App.lookupSession
       (App.delete_session [⟨"CA3w", 1, "ask_name", 9, dumps (JsonVal.obj [])⟩] "CA3w")
       "CA3w" = none) ∧
    (App.voice
        { users := [exUser],
          sessions := [⟨"CA3w", 1, "ask_name", 9, dumps (JsonVal.obj [])⟩],
          call_logs := [] } "CA3w" "+15557770000" "+15550001111" =
       ([TwiMLItem.say "Sorry, something went wrong. Please call back later.",
         TwiMLItem.hangup],
        { users := [exUser],
          sessions := [⟨"CA3w", 1, "ask_name", 9, dumps (JsonVal.obj [])⟩],
          call_logs := [] }) ∧
     App.lookupSession [⟨"CA3w", 1, "ask_name", 9, dumps (JsonVal.obj [])⟩] "CA3w"
       = some ⟨"CA3w", 1, "ask_name", 9, dumps (JsonVal.obj [])⟩) := by
  have h := claim_C3_amended
    { users := [exUser],
      sessions := [⟨"CA3w", 1, "ask_name", 9, dumps (JsonVal.obj [])⟩],
      call_logs := [] } "CA3w" "+15557770000" "+15550001111" "hello"
    App.ResponderOutcome.failure exUser rfl
  exact ⟨rfl, rfl, by decide,
    h.1 ⟨"CA3w", 1, "ask_name", 9, dumps (JsonVal.obj [])⟩ rfl (by decide),
    h.2.1 ⟨"CA3w", 1, "ask_name", 9, dumps (JsonVal.obj [])⟩ rfl (by decide)⟩

/-- `update_session` with no data patch: stage override and step bump
only, data re-serialised unchanged. -/
theorem App.update_session_none_data (st : App.SessionStore) (sid : String)
    (stg : Option String) (b : Bool) (row : App.Session)
    (hrow : App.lookupSession st sid = some row) :
    App.update_session st sid stg none b =
      some (App.update_rows st sid (stg.getD row.stage)
        (row.step_count + (if b then 1 else 0))
        (dumps (safe_json row.data_json (JsonVal.obj [])))) := by
  rw [App.update_session, hrow]

/-- C4 counterexample: a turn with an empty utterance is answered (and
logged) but does not touch the session, so after this turn the step
counter is still 3 — the counter is not incremented on each turn and
does not equal the number of turns. -/
theorem claim_C4_counterexample :
    App.handle_input
        { users := [exUser],
          sessions := [⟨"CA4", 1, "ask_name", 3, dumps (JsonVal.obj [])⟩],
          call_logs := [] }
        "CA4" "+15557770000" "+15550001111" "" App.ResponderOutcome.failure
      = some ([TwiMLItem.gather ["Sorry, I didn’t catch that. Please repeat."],
               TwiMLItem.say "Goodbye."],
              { users := [exUser],
                sessions := [⟨"CA4", 1, "ask_name", 3, dumps (JsonVal.obj [])⟩],
                call_logs := [⟨1, "CA4", "+15550001111", "+15557770000", "ask_name", "",
                  "Sorry, I didn’t catch that. Please repeat."⟩] }) ∧
    (App.lookupSession [⟨"CA4", 1, "ask_name", 3, dumps (JsonVal.obj [])⟩] "CA4").map
        App.Session.step_count = some 3 :=
  ⟨rfl, rfl⟩

/-- C4 amended: every `update_session` call that succeeds on an
existing row with `bump_step` (every handler call site) increments the
step counter by exactly one, and across any `/handle-input` turn the
counter of a surviving session never decreases — it is unchanged
(empty-utterance turns) or incremented by one. -/
theorem claim_C4_amended :
    (∀ (st : App.SessionStore) (sid : String) (stg : Option String)
       (patch : Option (List (String × JsonVal))) (row : App.Session),
       App.lookupSession st sid = some row →
       ∀ st2, App.update_session st sid stg patch true = some st2 →
       ∃ row2, App.lookupSession st2 sid = some row2 ∧
         row2.step_count = row.step_count + 1) ∧
    (∀ (a : App.AppState) (sid2 f2 t2 sp2 : String) (o2 : App.ResponderOutcome)
       (tw : TwiML) (a2 : App.AppState) (r r2 : App.Session),
       App.handle_input a sid2 f2 t2 sp2 o2 = some (tw, a2) →
       App.lookupSession a.sessions sid2 = some r →
       App.lookupSession a2.sessions sid2 = some r2 →
       r2.step_count = r.step_count ∨ r2.step_count = r.step_count + 1) := by
  constructor
  · intro st sid stg patch row hrow st2 hup
    cases patch with
    | none =>
        rw [App.update_session_none_data st sid stg true row hrow] at hup
        simp only [Option.some.injEq] at hup
        subst hup
        exact ⟨_, App.lookupSession_update_rows_self st sid _ _ _ row hrow, by simp⟩
    | some p =>
        cases hm : asObj (safe_json row.data_json (JsonVal.obj [])) with
        | none =>
            rw [App.update_session_not_obj st sid stg p true row hrow hm] at hup
            exact absurd hup (by simp)
        | some m =>
            rw [App.update_session_obj st sid stg p true row m hrow (asObj_some hm)] at hup
            simp only [Option.some.injEq] at hup
            subst hup
            exact ⟨_, App.lookupSession_update_rows_self st sid _ _ _ row hrow, by simp⟩
  · intro a sid2 f2 t2 sp2 o2 tw a2 r r2 hrun hr hr2
    cases hu2 : App.find_user_by_to_number a.users t2 with
    | none =>
        simp [App.handle_input, hu2] at hrun
        obtain ⟨-, ha2⟩ := hrun
        subst ha2
        rw [hr] at hr2
        simp only [Option.some.injEq] at hr2
        subst hr2
        exact Or.inl rfl
    | some u2 =>
        by_cases hcap : r.step_count > App.MAX_CALL_STEPS
        · simp [App.handle_input, hu2, App.get_or_create_session, hr, hcap] at hrun
          obtain ⟨-, ha2⟩ := hrun
          subst ha2
          simp only [App.lookupSession_delete_self, reduceCtorEq] at hr2
        · by_cases hsp : pyStrip sp2 = ""
          · simp [App.handle_input, hu2, App.get_or_create_session, hr, hcap, hsp] at hrun
            obtain ⟨-, ha2⟩ := hrun
            subst ha2
            simp only [hr, Option.some.injEq] at hr2
            subst hr2
            exact Or.inl rfl
          · by_cases hmode : App.mode_of u2 = "message"
            · by_cases hs1 : App.stage_of r = "root"
              · cases hdv : asObj (safe_json r.data_json (JsonVal.obj [])) with
                | none =>
                    simp [App.handle_input, hu2, App.get_or_create_session, hr, hcap, hsp,
                      hmode, hs1, hdv] at hrun
                | some data =>
                    have hup := App.update_session_obj a.sessions sid2 (some "ask_name")
                      (dictSet data "reason" (JsonVal.str (pyStrip sp2))) true r data hr
                      (asObj_some hdv)
                    simp [App.handle_input, hu2, App.get_or_create_session, hr, hcap, hsp,
                      hmode, hs1, hdv, hup] at hrun
                    obtain ⟨-, ha2⟩ := hrun
                    subst ha2
                    rw [App.lookupSession_update_rows_self a.sessions sid2 _ _ _ r hr] at hr2
                    simp only [Option.some.injEq] at hr2
                    subst hr2
                    exact Or.inr rfl
              · by_cases hs2 : App.stage_of r = "ask_name"
                · cases hdv : asObj (safe_json r.data_json (JsonVal.obj [])) with
                  | none =>
                      simp [App.handle_input, hu2, App.get_or_create_session, hr, hcap, hsp,
                        hmode, hs1, hs2, hdv] at hrun
                  | some data =>
                      have hup := App.update_session_obj a.sessions sid2 (some "ask_callback")
                        (dictSet data "name" (JsonVal.str (pyStrip sp2))) true r data hr
                        (asObj_some hdv)
                      simp [App.handle_input, hu2, App.get_or_create_session, hr, hcap, hsp,
                        hmode, hs1, hs2, hdv, hup] at hrun
                      obtain ⟨-, ha2⟩ := hrun
                      subst ha2
                      rw [App.lookupSession_update_rows_self a.sessions sid2 _ _ _ r hr] at hr2
                      simp only [Option.some.injEq] at hr2
                      subst hr2
                      exact Or.inr rfl
                · by_cases hs3 : App.stage_of r = "ask_callback"
                  · cases hdv : asObj (safe_json r.data_json (JsonVal.obj [])) with
                    | none =>
                        simp [App.handle_input, hu2, App.get_or_create_session, hr, hcap, hsp,
                          hmode, hs1, hs2, hs3, hdv] at hrun
                    | some data =>
                        cases hcv : asObj (safe_json u2.capture_json App.defaultCapture) with
                        | none =>
                            simp [App.handle_input, hu2, App.get_or_create_session, hr, hcap,
                              hsp, hmode, hs1, hs2, hs3, hdv, hcv] at hrun
                        | some cap =>
                            by_cases htr : truthy ((dictGet cap "collect_preferred_time").getD
                                (JsonVal.bool true)) = true
                            · have hup := App.update_session_obj a.sessions sid2
                                (some "ask_time")
                                (dictSet data "callback" (JsonVal.str (pyStrip sp2))) true r
                                data hr (asObj_some hdv)
                              simp [App.handle_input, hu2, App.get_or_create_session, hr,
                                hcap, hsp, hmode, hs1, hs2, hs3, hdv, hcv, htr, hup] at hrun
                              obtain ⟨-, ha2⟩ := hrun
                              subst ha2
                              rw [App.lookupSession_update_rows_self a.sessions sid2 _ _ _
                                r hr] at hr2
                              simp only [Option.some.injEq] at hr2
                              subst hr2
                              exact Or.inr rfl
                            · have hup := App.update_session_obj a.sessions sid2 (some "done")
                                (dictSet data "callback" (JsonVal.str (pyStrip sp2))) true r
                                data hr (asObj_some hdv)
                              simp [App.handle_input, hu2, App.get_or_create_session, hr,
                                hcap, hsp, hmode, hs1, hs2, hs3, hdv, hcv, htr, hup] at hrun
                              obtain ⟨-, ha2⟩ := hrun
                              subst ha2
                              simp only [App.lookupSession_delete_self, reduceCtorEq] at hr2
                  · by_cases hs4 : App.stage_of r = "ask_time"
                    · cases hdv : asObj (safe_json r.data_json (JsonVal.obj [])) with
                      | none =>
                          simp [App.handle_input, hu2, App.get_or_create_session, hr, hcap,
                            hsp, hmode, hs1, hs2, hs3, hs4, hdv] at hrun
                      | some data =>
                          have hup := App.update_session_obj a.sessions sid2 (some "done")
                            (dictSet data "preferred_time" (JsonVal.str (pyStrip sp2))) true
                            r data hr (asObj_some hdv)
                          simp [App.handle_input, hu2, App.get_or_create_session, hr, hcap,
                            hsp, hmode, hs1, hs2, hs3, hs4, hdv, hup] at hrun
                          obtain ⟨-, ha2⟩ := hrun
                          subst ha2
                          simp only [App.lookupSession_delete_self, reduceCtorEq] at hr2
                    · simp [App.handle_input, hu2, App.get_or_create_session, hr, hcap, hsp,
                        hmode, hs1, hs2, hs3, hs4] at hrun
                      obtain ⟨-, ha2⟩ := hrun
                      subst ha2
                      simp only [App.lookupSession_delete_self, reduceCtorEq] at hr2
            · cases hdv : asObj (safe_json r.data_json (JsonVal.obj [])) with
              | none =>
                  have hupn := App.update_session_not_obj a.sessions sid2 (some "ai")
                    [("last_user", JsonVal.str (pyStrip sp2))] true r hr hdv
                  simp [App.handle_input, hu2, App.get_or_create_session, hr, hcap, hsp,
                    hmode, hupn] at hrun
              | some data =>
                  have hup := App.update_session_obj a.sessions sid2 (some "ai")
                    [("last_user", JsonVal.str (pyStrip sp2))] true r data hr
                    (asObj_some hdv)
                  simp [App.handle_input, hu2, App.get_or_create_session, hr, hcap, hsp,
                    hmode, hup] at hrun
                  obtain ⟨-, ha2⟩ := hrun
                  subst ha2
                  rw [App.lookupSession_update_rows_self a.sessions sid2 _ _ _ r hr] at hr2
                  simp only [Option.some.injEq] at hr2
                  subst hr2
                  exact Or.inr rfl

/-- C4 witness: a concrete bump — updating an existing session at step
1 yields a session at step 2. -/
theorem claim_C4_witness :
    App.lookupSession [⟨"CA4w", 1, "ask_name", 1, dumps (JsonVal.obj [])⟩] "CA4w"
      = some ⟨"CA4w", 1, "ask_name", 1, dumps (JsonVal.obj [])⟩ ∧
    App.update_session [⟨"CA4w", 1, "ask_name", 1, dumps (JsonVal.obj [])⟩] "CA4w"
      (some "ask_callback") none true
      = some [⟨"CA4w", 1, "ask_callback", 2, dumps (JsonVal.obj [])⟩] ∧
    ∃ row2,
      App.lookupSession [⟨"CA4w", 1, "ask_callback", 2, dumps (JsonVal.obj [])⟩] "CA4w"
        = some row2 ∧ row2.step_count = 1 + 1 := by
  refine ⟨rfl, rfl, ?_⟩
  exact claim_C4_amended.1
    [⟨"CA4w", 1, "ask_name", 1, dumps (JsonVal.obj [])⟩] "CA4w" (some "ask_callback") none
    ⟨"CA4w", 1, "ask_name", 1, dumps (JsonVal.obj [])⟩ rfl
    [⟨"CA4w", 1, "ask_callback", 2, dumps (JsonVal.obj [])⟩] rfl


/-- C5 counterexample: at stage `msg_phone` in the backup snapshot, the
very first empty utterance already terminates the call and deletes the
session — there is no per-stage "one re-prompt" before termination; the
session is not left unchanged and no second empty turn is needed. -/
theorem claim_C5_counterexample :
    Backup.handle_input
        ⟨[⟨"CA5", some "message", "msg_phone",
            dumps (JsonVal.obj [("name", JsonVal.str "Dana")])⟩], [], []⟩
        "CA5" "+15551112222" "+15553334444" ""
      = some ([TwiMLItem.say "I still did not catch that. Goodbye."],
              { call_state := [],
                call_logs := [⟨"CA5", "+15551112222", "+15553334444", some "message",
                  "msg_phone", "", "I still did not catch that. Goodbye."⟩],
                messages := [] }) :=
  rfl

/-- C5 amended: empty-utterance handling, as implemented.  Backup
snapshot: an empty utterance at `root` re-prompts and leaves the
session store unchanged; an empty utterance at any other stage
immediately terminates with a goodbye and deletes the session; each
empty turn writes exactly one call-log entry.  Current snapshot: every
empty utterance (below the step cap) re-prompts, leaves the session
unchanged and writes exactly one call-log entry — silence never deletes
the session. -/
theorem claim_C5_amended :
    (∀ (b : Backup.BState) (sid f t sp : String),
       pyStrip sp = "" →
       (Backup.get_state b.call_state sid).2.1 = "root" →
       Backup.handle_input b sid f t sp =
         some ([TwiMLItem.gather ["I did not catch that. Please repeat what you need."],
                TwiMLItem.say "Goodbye."],
               { call_state := b.call_state,
                 call_logs := b.call_logs ++
                   [⟨sid, f, t, (Backup.get_state b.call_state sid).1, "root", sp,
                     "I did not catch that. Please repeat what you need."⟩],
                 messages := b.messages })) ∧
    (∀ (b : Backup.BState) (sid f t sp : String),
       pyStrip sp = "" →
       (Backup.get_state b.call_state sid).2.1 ≠ "root" →
       Backup.handle_input b sid f t sp =
         some ([TwiMLItem.say "I still did not catch that. Goodbye."],
               { call_state := Backup.clear_state b.call_state sid,
                 call_logs := b.call_logs ++
                   [⟨sid, f, t, (Backup.get_state b.call_state sid).1,
                     (Backup.get_state b.call_state sid).2.1, sp,
                     "I still did not catch that. Goodbye."⟩],
                 messages := b.messages }) ∧
       Backup.lookup_state (Backup.clear_state b.call_state sid) sid = none) ∧
    (∀ (st : App.AppState) (sid f t sp : String) (o : App.ResponderOutcome)
       (u : App.UserRow) (row : App.Session),
       App.find_user_by_to_number st.users t = some u →
       App.lookupSession st.sessions sid = some row →
       ¬ row.step_count > App.MAX_CALL_STEPS →
       pyStrip sp = "" →
       App.handle_input st sid f t sp o =
         some ([TwiMLItem.gather ["Sorry, I didn’t catch that. Please repeat."],
                TwiMLItem.say "Goodbye."],
               { st with call_logs := st.call_logs ++
                   [⟨u.id, sid, t, f, App.stage_of row, "",
                     "Sorry, I didn’t catch that. Please repeat."⟩] })) := by
  refine ⟨?_, ?_, ?_⟩
  · intro b sid f t sp hsp hst
    rcases hx : Backup.get_state b.call_state sid with ⟨i, stg, dv⟩
    rw [hx] at hst
    simp only at hst
    subst hst
    simp [Backup.handle_input, hx, hsp]
  · intro b sid f t sp hsp hst
    rcases hx : Backup.get_state b.call_state sid with ⟨i, stg, dv⟩
    rw [hx] at hst
    simp only at hst
    refine ⟨?_, Backup.lookup_clear_state_self b.call_state sid⟩
    simp [Backup.handle_input, hx, hsp, hst]
  · intro st sid f t sp o u row hu hrow hcap hsp
    simp [App.handle_input, hu, App.get_or_create_session, hrow, hcap, hsp]

/-- C5 witness: one empty utterance at `msg_phone` terminates and
deletes the session. -/
theorem claim_C5_witness :
    pyStrip "" = "" ∧
    (Backup.get_state
        [⟨"CA5w", some "message", "msg_phone", dumps (JsonVal.obj [])⟩] "CA5w").2.1
      ≠ "root" ∧
    (Backup.handle_input
        ⟨[⟨"CA5w", some "message", "msg_phone", dumps (JsonVal.obj [])⟩], [], []⟩
        "CA5w" "+15551112222" "+15553334444" ""
      = some ([TwiMLItem.say "I still did not catch that. Goodbye."],
              { call_state := Backup.clear_state
                  [⟨"CA5w", some "message", "msg_phone", dumps (JsonVal.obj [])⟩] "CA5w",
                call_logs := [] ++
                  [⟨"CA5w", "+15551112222", "+15553334444", some "message", "msg_phone", "",
                    "I still did not catch that. Goodbye."⟩],
                messages := [] }) ∧
     Backup.lookup_state
       (Backup.clear_state
         [⟨"CA5w", some "message", "msg_phone", dumps (JsonVal.obj [])⟩] "CA5w") "CA5w"
       = none) := by
  refine ⟨rfl, by decide, ?_⟩
  exact claim_C5_amended.2.1
    ⟨[⟨"CA5w", some "message", "msg_phone", dumps (JsonVal.obj [])⟩], [], []⟩
    "CA5w" "+15551112222" "+15553334444" "" rfl (by decide)

/-- Concrete AI-mode tenant for claim C6. -/
def exUserAI : App.UserRow :=
  ⟨1, "Biz", "", "Hi.", "FAQ text", "ai", dumps (JsonVal.obj []), "+15550001111"⟩

/-- C6 counterexample: an AI-mode turn whose responder call fails.  The
turn substitutes the fixed fallback line and continues, but the session
data — the only per-session record of recent turns — afterwards holds
exactly `last_user ↦ "Hello"`: the produced fallback reply is recorded
only in the call log, not in any recent-turns buffer, refuting "the
recent-turns buffer records both the caller's utterance and the
produced fallback reply". -/
theorem claim_C6_counterexample :
    App.handle_input
        { users := [exUserAI],
          sessions := [⟨"CA6", 1, "ai", 2, dumps (JsonVal.obj [])⟩],
          call_logs := [] }
        "CA6" "+15557770000" "+15550001111" "Hello" App.ResponderOutcome.failure
      = some ([TwiMLItem.gather
                 ["Sorry—there was a problem. Please leave your name and callback number.",
                  "Anything else?"],
               TwiMLItem.say "Goodbye.", TwiMLItem.hangup],
              { users := [exUserAI],
                sessions := [⟨"CA6", 1, "ai", 3,
                  dumps (JsonVal.obj [("last_user", JsonVal.str "Hello")])⟩],
                call_logs := [⟨1, "CA6", "+15550001111", "+15557770000", "ai", "Hello",
                  "Sorry—there was a problem. Please leave your name and callback number."⟩] }) ∧
    dictGet [("last_user", JsonVal.str "Hello")] "last_user"
      = some (JsonVal.str "Hello") :=
  ⟨rfl, rfl⟩

/-- C6 amended: on a responder failure in AI mode the turn's utterance
is the fixed deterministic fallback line for that failure kind, the
session stage is set to `ai` and the call continues with a re-prompt;
the session data records the caller's utterance under `last_user`, and
the call log records both the utterance and the fallback reply — no
recent-turns buffer stores the reply. -/
theorem claim_C6_amended (st : App.AppState) (sid f t sp : String)
    (o : App.ResponderOutcome) (u : App.UserRow) (row : App.Session)
    (m : List (String × JsonVal))
    (hu : App.find_user_by_to_number st.users t = some u)
    (hrow : App.lookupSession st.sessions sid = some row)
    (hcap : ¬ row.step_count > App.MAX_CALL_STEPS)
    (hmode : App.mode_of u ≠ "message")
    (hsp : ¬ pyStrip sp = "")
    (hdata : safe_json row.data_json (JsonVal.obj []) = JsonVal.obj m) :
    (App.handle_input st sid f t sp o =
      some ([TwiMLItem.gather
               [App.ai_reply (if u.business_name = "" then App.APP_NAME else u.business_name)
                  u.faqs (pyStrip sp) o, "Anything else?"],
             TwiMLItem.say "Goodbye.", TwiMLItem.hangup],
            { st with
              sessions := App.update_rows st.sessions sid "ai" (row.step_count + 1)
                (dumps (JsonVal.obj (dictUpdate m [("last_user", JsonVal.str (pyStrip sp))]))),
              call_logs := st.call_logs ++
                [⟨u.id, sid, t, f, App.stage_of row, pyStrip sp,
                  App.ai_reply (if u.business_name = "" then App.APP_NAME else u.business_name)
                    u.faqs (pyStrip sp) o⟩] })) ∧
    dictGet (dictUpdate m [("last_user", JsonVal.str (pyStrip sp))]) "last_user"
      = some (JsonVal.str (pyStrip sp)) ∧
    (∀ bn fq c, App.ai_reply bn fq c App.ResponderOutcome.failure =
       "Sorry—there was a problem. Please leave your name and callback number.") ∧
    (∀ bn fq c, App.ai_reply bn fq c App.ResponderOutcome.unavailable =
       "Thanks. I can take a message—what’s your name and callback number?") ∧
    (∀ bn fq c s2, pyStrip s2 = "" →
       App.ai_reply bn fq c (App.ResponderOutcome.output s2) =
         "Sorry—I didn’t catch that. What’s your name and callback number?") := by
  refine ⟨?_, dictGet_dictSet_self m "last_user" (JsonVal.str (pyStrip sp)), ?_, ?_, ?_⟩
  · have hup := App.update_session_obj st.sessions sid (some "ai")
      [("last_user", JsonVal.str (pyStrip sp))] true row m hrow hdata
    simp [App.handle_input, hu, App.get_or_create_session, hrow, hcap, hsp, hmode, hup]
  · intro bn fq c
    rfl
  · intro bn fq c
    rfl
  · intro bn fq c s2 hs2
    simp [App.ai_reply, hs2]

/-- C6 witness: the concrete failing AI turn of the counterexample run
through the amended theorem. -/
theorem claim_C6_witness :
    (¬ pyStrip "Hello" = "") ∧
    App.mode_of exUserAI ≠ "message" ∧
    App.handle_input
        { users := [exUserAI],
          sessions := [⟨"CA6w", 1, "ai", 2, dumps (JsonVal.obj [])⟩],
          call_logs := [] }
        "CA6w" "+15557770000" "+15550001111" "Hello" App.ResponderOutcome.failure
      = some ([TwiMLItem.gather
                 [App.ai_reply "Biz" "FAQ text" "Hello" App.ResponderOutcome.failure,
                  "Anything else?"],
               TwiMLItem.say "Goodbye.", TwiMLItem.hangup],
              { users := [exUserAI],
                sessions := [⟨"CA6w", 1, "ai", 3,
                  dumps (JsonVal.obj [("last_user", JsonVal.str "Hello")])⟩],
                call_logs := [⟨1, "CA6w", "+15550001111", "+15557770000", "ai", "Hello",
                  App.ai_reply "Biz" "FAQ text" "Hello" App.ResponderOutcome.failure⟩] }) := by
  refine ⟨by decide, by decide, ?_⟩
  exact (claim_C6_amended
    { users := [exUserAI],
      sessions := [⟨"CA6w", 1, "ai", 2, dumps (JsonVal.obj [])⟩],
      call_logs := [] }
    "CA6w" "+15557770000" "+15550001111" "Hello" App.ResponderOutcome.failure
    exUserAI ⟨"CA6w", 1, "ai", 2, dumps (JsonVal.obj [])⟩ [] rfl rfl (by decide)
    (by decide) (by decide) rfl).1


/-- C10: `safe_json` is total — it returns the parsed value when the
text parses and the supplied default otherwise, never raising — and a
turn whose session `data_json` is corrupted (unparseable) still runs to
completion with a spoken response: the corrupted data is treated as the
empty dict and the call does not fail. -/
theorem claim_C10_safe_json_total (s : JsonText) (d : JsonVal)
    (st : App.AppState) (sid f t sp raw : String) (o : App.ResponderOutcome)
    (u : App.UserRow) (row : App.Session)
    (hu : App.find_user_by_to_number st.users t = some u)
    (hrow : App.lookupSession st.sessions sid = some row)
    (hcorrupt : row.data_json = JsonText.invalid raw)
    (hcap : ∃ c, safe_json u.capture_json App.defaultCapture = JsonVal.obj c) :
    ((∃ v, loads s = some v ∧ safe_json s d = v) ∨
      (loads s = none ∧ safe_json s d = d)) ∧
    safe_json (JsonText.invalid raw) d = d ∧
    (App.handle_input st sid f t sp o).map (fun r => App.speaks r.1) = some true := by
  refine ⟨?_, rfl, ?_⟩
  · cases s with
    | valid v => exact Or.inl ⟨v, rfl, rfl⟩
    | invalid r2 => exact Or.inr ⟨rfl, rfl⟩
  · obtain ⟨c, hc⟩ := hcap
    have hdata : safe_json row.data_json (JsonVal.obj []) = JsonVal.obj [] := by
      rw [hcorrupt]
      rfl
    cases hres : App.handle_input st sid f t sp o with
    | none =>
        by_cases hstep : row.step_count > App.MAX_CALL_STEPS
        · simp [App.handle_input, hu, App.get_or_create_session, hrow, hstep] at hres
        · by_cases hsp : pyStrip sp = ""
          · simp [App.handle_input, hu, App.get_or_create_session, hrow, hstep, hsp] at hres
          · by_cases hmode : App.mode_of u = "message"
            · by_cases hs1 : App.stage_of row = "root"
              · have hup := App.update_session_obj st.sessions sid (some "ask_name")
                  (dictSet [] "reason" (JsonVal.str (pyStrip sp))) true row [] hrow hdata
                simp [App.handle_input, hu, App.get_or_create_session, hrow, hstep, hsp,
                  hmode, hs1, hdata, asObj, hup] at hres
              · by_cases hs2 : App.stage_of row = "ask_name"
                · have hup := App.update_session_obj st.sessions sid (some "ask_callback")
                    (dictSet [] "name" (JsonVal.str (pyStrip sp))) true row [] hrow hdata
                  simp [App.handle_input, hu, App.get_or_create_session, hrow, hstep, hsp,
                    hmode, hs1, hs2, hdata, asObj, hup] at hres
                · by_cases hs3 : App.stage_of row = "ask_callback"
                  · by_cases htr : truthy ((dictGet c "collect_preferred_time").getD
                        (JsonVal.bool true)) = true
                    · have hup := App.update_session_obj st.sessions sid (some "ask_time")
                        (dictSet [] "callback" (JsonVal.str (pyStrip sp))) true row []
                        hrow hdata
                      simp [App.handle_input, hu, App.get_or_create_session, hrow, hstep,
                        hsp, hmode, hs1, hs2, hs3, hdata, asObj, hc, htr, hup] at hres
                    · have hup := App.update_session_obj st.sessions sid (some "done")
                        (dictSet [] "callback" (JsonVal.str (pyStrip sp))) true row []
                        hrow hdata
                      simp [App.handle_input, hu, App.get_or_create_session, hrow, hstep,
                        hsp, hmode, hs1, hs2, hs3, hdata, asObj, hc, htr, hup] at hres
                  · by_cases hs4 : App.stage_of row = "ask_time"
                    · have hup := App.update_session_obj st.sessions sid (some "done")
                        (dictSet [] "preferred_time" (JsonVal.str (pyStrip sp))) true row []
                        hrow hdata
                      simp [App.handle_input, hu, App.get_or_create_session, hrow, hstep,
                        hsp, hmode, hs1, hs2, hs3, hs4, hdata, asObj, hup] at hres
                    · simp [App.handle_input, hu, App.get_or_create_session, hrow, hstep,
                        hsp, hmode, hs1, hs2, hs3, hs4] at hres
            · have hup := App.update_session_obj st.sessions sid (some "ai")
                [("last_user", JsonVal.str (pyStrip sp))] true row [] hrow hdata
              simp [App.handle_input, hu, App.get_or_create_session, hrow, hstep, hsp,
                hmode, hup] at hres
    | some r =>
        obtain ⟨tw2, st2⟩ := r
        by_cases hstep : row.step_count > App.MAX_CALL_STEPS
        · simp [App.handle_input, hu, App.get_or_create_session, hrow, hstep] at hres
          obtain ⟨h1, -⟩ := hres
          subst h1
          simp [App.speaks]
        · by_cases hsp : pyStrip sp = ""
          · simp [App.handle_input, hu, App.get_or_create_session, hrow, hstep, hsp] at hres
            obtain ⟨h1, -⟩ := hres
            subst h1
            simp [App.speaks]
          · by_cases hmode : App.mode_of u = "message"
            · by_cases hs1 : App.stage_of row = "root"
              · have hup := App.update_session_obj st.sessions sid (some "ask_name")
                  (dictSet [] "reason" (JsonVal.str (pyStrip sp))) true row [] hrow hdata
                simp [App.handle_input, hu, App.get_or_create_session, hrow, hstep, hsp,
                  hmode, hs1, hdata, asObj, hup] at hres
                obtain ⟨h1, -⟩ := hres
                subst h1
                simp [App.speaks]
              · by_cases hs2 : App.stage_of row = "ask_name"
                · have hup := App.update_session_obj st.sessions sid (some "ask_callback")
                    (dictSet [] "name" (JsonVal.str (pyStrip sp))) true row [] hrow hdata
                  simp [App.handle_input, hu, App.get_or_create_session, hrow, hstep, hsp,
                    hmode, hs1, hs2, hdata, asObj, hup] at hres
                  obtain ⟨h1, -⟩ := hres
                  subst h1
                  simp [App.speaks]
                · by_cases hs3 : App.stage_of row = "ask_callback"
                  · by_cases htr : truthy ((dictGet c "collect_preferred_time").getD
                        (JsonVal.bool true)) = true
                    · have hup := App.update_session_obj st.sessions sid (some "ask_time")
                        (dictSet [] "callback" (JsonVal.str (pyStrip sp))) true row []
                        hrow hdata
                      simp [App.handle_input, hu, App.get_or_create_session, hrow, hstep,
                        hsp, hmode, hs1, hs2, hs3, hdata, asObj, hc, htr, hup] at hres
                      obtain ⟨h1, -⟩ := hres
                      subst h1
                      simp [App.speaks]
                    · have hup := App.update_session_obj st.sessions sid (some "done")
                        (dictSet [] "callback" (JsonVal.str (pyStrip sp))) true row []
                        hrow hdata
                      simp [App.handle_input, hu, App.get_or_create_session, hrow, hstep,
                        hsp, hmode, hs1, hs2, hs3, hdata, asObj, hc, htr, hup] at hres
                      obtain ⟨h1, -⟩ := hres
                      subst h1
                      simp [App.speaks]
                  · by_cases hs4 : App.stage_of row = "ask_time"
                    · have hup := App.update_session_obj st.sessions sid (some "done")
                        (dictSet [] "preferred_time" (JsonVal.str (pyStrip sp))) true row []
                        hrow hdata
                      simp [App.handle_input, hu, App.get_or_create_session, hrow, hstep,
                        hsp, hmode, hs1, hs2, hs3, hs4, hdata, asObj, hup] at hres
                      obtain ⟨h1, -⟩ := hres
                      subst h1
                      simp [App.speaks]
                    · simp [App.handle_input, hu, App.get_or_create_session, hrow, hstep,
                        hsp, hmode, hs1, hs2, hs3, hs4] at hres
                      obtain ⟨h1, -⟩ := hres
                      subst h1
                      simp [App.speaks]
            · have hup := App.update_session_obj st.sessions sid (some "ai")
                [("last_user", JsonVal.str (pyStrip sp))] true row [] hrow hdata
              simp [App.handle_input, hu, App.get_or_create_session, hrow, hstep, hsp,
                hmode, hup] at hres
              obtain ⟨h1, -⟩ := hres
              subst h1
              simp [App.speaks]

/-- C10 witness: a session whose stored data is the unparseable text
`"not json"` is still answered with a spoken response, the corrupt data
acting as the empty dict. -/
theorem claim_C10_witness :
    App.lookupSession [⟨"CA10", 1, "root", 0, JsonText.invalid "not json"⟩] "CA10"
      = some ⟨"CA10", 1, "root", 0, JsonText.invalid "not json"⟩ ∧
    ((∃ v, loads (JsonText.invalid "nope") = some v ∧
        safe_json (JsonText.invalid "nope") JsonVal.null = v) ∨
      (loads (JsonText.invalid "nope") = none ∧
        safe_json (JsonText.invalid "nope") JsonVal.null = JsonVal.null)) ∧
    safe_json (JsonText.invalid "not json") JsonVal.null = JsonVal.null ∧
    (App.handle_input
        { users := [exUser],
          sessions := [⟨"CA10", 1, "root", 0, JsonText.invalid "not json"⟩],
          call_logs := [] }
        "CA10" "+15557770000" "+15550001111" "hello" App.ResponderOutcome.failure).map
      (fun r => App.speaks r.1) = some true :=
  ⟨rfl, claim_C10_safe_json_total (JsonText.invalid "nope") JsonVal.null
    { users := [exUser],
      sessions := [⟨"CA10", 1, "root", 0, JsonText.invalid "not json"⟩],
      call_logs := [] }
    "CA10" "+15557770000" "+15550001111" "hello" "not json"
    App.ResponderOutcome.failure exUser
    ⟨"CA10", 1, "root", 0, JsonText.invalid "not json"⟩ rfl rfl rfl ⟨[], rfl⟩⟩

end Caltora
